import Mathlib

/-!
Verification development for the vivintpy gateway: a shallow embedding of
the upstream transport (`vivintpy/api.py`), the entity/device/panel/system
push pipeline (`vivintpy/entity.py`, `vivintpy/devices/*`, `vivintpy/system.py`,
`vivintpy/account.py`) and the local token service
(`vivintpy_api/deps.py`, `vivintpy_api/routers/auth.py`).

Python dictionaries are embedded as association lists over a JSON-like value
type `PValue`; Python truthiness, `dict.get`, `dict.update`, `del`, and
`list.remove` are modelled explicitly.  Code that can raise is embedded with
`Except`.
-/

namespace VivintSpec

/-- JSON-like Python value.  `vDevice` models a reference to a device object
(identified by its device id) that the code places into event payloads. -/
inductive PValue where
  | vNull
  | vBool (b : Bool)
  | vInt (n : Int)
  | vStr (s : String)
  | vList (l : List PValue)
  | vDict (d : List (String × PValue))
  | vDevice (id : Int)
deriving Repr

/-- A Python dict: association list from string keys to values. -/
abbrev Dict := List (String × PValue)

mutual

/-- Structural equality on values (Python `==` restricted to the embedded
value space; `True == 1` style bool/int cross equality is handled). -/
def pvEq : PValue → PValue → Bool
  | .vNull, .vNull => true
  | .vBool a, .vBool b => a == b
  | .vBool a, .vInt n => (if a then (1 : Int) else 0) == n
  | .vInt n, .vBool a => (if a then (1 : Int) else 0) == n
  | .vInt a, .vInt b => a == b
  | .vStr a, .vStr b => a == b
  | .vList a, .vList b => pvListEq a b
  | .vDict a, .vDict b => pvDictEq a b
  | .vDevice a, .vDevice b => a == b
  | _, _ => false

def pvListEq : List PValue → List PValue → Bool
  | [], [] => true
  | a :: as, b :: bs => pvEq a b && pvListEq as bs
  | _, _ => false

def pvDictEq : List (String × PValue) → List (String × PValue) → Bool
  | [], [] => true
  | (ka, va) :: as, (kb, vb) :: bs => ka == kb && pvEq va vb && pvDictEq as bs
  | _, _ => false

end

/-- Python truthiness of an embedded value. -/
def truthy : PValue → Bool
  | .vNull => false
  | .vBool b => b
  | .vInt n => n != 0
  | .vStr s => s ≠ ""
  | .vList l => !l.isEmpty
  | .vDict d => !d.isEmpty
  | .vDevice _ => true

/-- `d.get(key)`: first binding of `key`, if any. -/
def dget : Dict → String → Option PValue
  | [], _ => none
  | (k, v) :: rest, key => if k = key then some v else dget rest key

/-- `key in d`. -/
def dhas (d : Dict) (key : String) : Bool :=
  (dget d key).isSome

/-- `d[key] = v`: replace the first binding in place, else append. -/
def dset : Dict → String → PValue → Dict
  | [], key, v => [(key, v)]
  | (k, w) :: rest, key, v =>
    if k = key then (k, v) :: rest else (k, w) :: dset rest key v

/-- `old.update(new)`: shallow merge, Python dict semantics. -/
def dmerge (old new : Dict) : Dict :=
  new.foldl (fun acc kv => dset acc kv.1 kv.2) old

/-- `del d[key]`: drop the binding (keys are unique in real dicts). -/
def ddel : Dict → String → Dict
  | [], _ => []
  | (k, v) :: rest, key =>
    if k = key then ddel rest key else (k, v) :: ddel rest key

/-- `d.get(key)` followed by Python truthiness (the ubiquitous
`if d.get(k):` idiom); absent keys are falsy. -/
def dtruthy (d : Dict) (key : String) : Bool :=
  match dget d key with
  | none => false
  | some v => truthy v

/-- `d.keys() == set ks`: key-set equality (Python `KeysView == set`). -/
def keysetEq (d : Dict) (ks : List String) : Bool :=
  d.all (fun kv => kv.1 ∈ ks) && ks.all (fun k => dhas d k)

/-- An event delivered synchronously to every listener registered for
`name` on the emitting entity (`Entity.emit`). -/
structure Event where
  name : String
  payload : Dict
deriving Repr

/-- Modelled from the spec: the repository's `vivintpy/const.py` is not under
`src/`; the compact wire-key constants below are taken from the spec's §6
alias-key list and from the literal fixtures in `src/tests/` ("t", "op",
"da", "d", "panid", "parid", "_id", "n", "ureg", "ctd").  Only their mutual
distinctness matters to the properties proved here. -/
def ATTR_ID : String := "_id"

/-- `VivintDeviceAttribute.TYPE` wire key. -/
def ATTR_TYPE : String := "t"

/-- `VivintDeviceAttribute.NAME` wire key. -/
def ATTR_NAME : String := "n"

/-- `PubNubMessageAttribute.TYPE` wire key. -/
def MSG_TYPE : String := "t"

/-- `PubNubMessageAttribute.OPERATION` wire key. -/
def MSG_OPERATION : String := "op"

/-- `PubNubMessageAttribute.DATA` wire key. -/
def MSG_DATA : String := "da"

/-- `PubNubMessageAttribute.DEVICES` wire key. -/
def MSG_DEVICES : String := "d"

/-- `PubNubMessageAttribute.PANEL_ID` wire key. -/
def MSG_PANEL_ID : String := "panid"

/-- `PubNubMessageAttribute.PARTITION_ID` wire key. -/
def MSG_PARTITION_ID : String := "parid"

/-- `SystemAttribute.USERS` wire key. -/
def SYS_USERS : String := "u"

/-- `PubNubOperatorAttribute.CREATE`. -/
def OP_CREATE : String := "c"

/-- `PubNubOperatorAttribute.DELETE`. -/
def OP_DELETE : String := "d"

/-- `CameraAttribute.CAMERA_THUMBNAIL_DATE` wire key ("ctd" per fixtures). -/
def CAM_THUMBNAIL_DATE : String := "ctd"

/-- `CameraAttribute.DING_DONG` wire key. -/
def CAM_DING_DONG : String := "dng"

/-- `CameraAttribute.VISITOR_DETECTED` wire key. -/
def CAM_VISITOR_DETECTED : String := "vdt"

/-- `CameraAttribute.DETER_ON_DUTY` wire key. -/
def CAM_DETER_ON_DUTY : String := "dod"

/-- `CameraAttribute.ACTUAL_TYPE` wire key. -/
def CAM_ACTUAL_TYPE : String := "act"

/-- `CameraAttribute.STATE` wire key. -/
def CAM_STATE : String := "s"

/-- Event name constants from `vivintpy/devices/camera.py` and
`vivintpy/devices/alarm_panel.py` / `vivintpy/entity.py`. -/
def UPDATE : String := "update"

/-- `camera.THUMBNAIL_READY`. -/
def THUMBNAIL_READY : String := "thumbnail_ready"

/-- `camera.DOORBELL_DING`. -/
def DOORBELL_DING : String := "doorbell_ding"

/-- `camera.VIDEO_READY`. -/
def VIDEO_READY : String := "video_ready"

/-- `camera.MOTION_DETECTED`. -/
def MOTION_DETECTED : String := "motion_detected"

/-- `alarm_panel.DEVICE_DELETED`. -/
def DEVICE_DELETED : String := "device_deleted"

/-- `alarm_panel.DEVICE_DISCOVERED`. -/
def DEVICE_DISCOVERED : String := "device_discovered"

/-- `devices.DEVICE`: payload key under which a device inserts itself. -/
def DEVICE_KEY : String := "device"

/-- `VivintDevice.emit` (src/vivintpy/devices/__init__.py:290-295): if the
payload maps "device" to `None` or lacks the key, insert a reference to the
emitting device; then dispatch via `Entity.emit`.  The returned event's
payload is what every registered listener receives. -/
def vivintEmit (selfId : Int) (eventName : String) (data : Dict) : Event :=
  let data' :=
    match dget data DEVICE_KEY with
    | none => dset data DEVICE_KEY (.vDevice selfId)
    | some .vNull => dset data DEVICE_KEY (.vDevice selfId)
    | some _ => data
  { name := eventName, payload := data' }

/-- `Entity.update_data` raw-dict effect (src/vivintpy/entity.py:55-77):
replace or shallow-merge. -/
def updateRaw (raw delta : Dict) (override : Bool) : Dict :=
  if override then delta else dmerge raw delta

/-- A device's `update_data` as seen through `VivintDevice.emit`
(src/vivintpy/entity.py:77 with the emit override): new raw data plus the
`update` event whose payload is `{"data": delta}` with the device inserted. -/
def deviceUpdateData (selfId : Int) (raw delta : Dict) (override : Bool) :
    Dict × Event :=
  (updateRaw raw delta override,
   vivintEmit selfId UPDATE [("data", .vDict delta)])

/-- Camera event classification (src/vivintpy/devices/camera.py:284-296),
an if/elif chain over the merged-in push message. -/
def cameraClassify (message : Dict) : Option String :=
  if dtruthy message CAM_THUMBNAIL_DATE then some THUMBNAIL_READY
  else if dtruthy message CAM_DING_DONG then some DOORBELL_DING
  else if keysetEq message [ATTR_ID, ATTR_TYPE] then some VIDEO_READY
  else if dtruthy message CAM_VISITOR_DETECTED
          || keysetEq message [ATTR_ID, CAM_ACTUAL_TYPE, CAM_STATE]
          || keysetEq message [ATTR_ID, CAM_DETER_ON_DUTY, ATTR_TYPE] then
    some MOTION_DETECTED
  else none

/-- `Camera.handle_pubnub_message` (src/vivintpy/devices/camera.py:280-301):
default merge (emitting `update`), then classification and at most one
domain event.  Returns the new raw data and the emitted events in order. -/
def cameraHandle (selfId : Int) (raw message : Dict) : Dict × List Event :=
  let (raw', updEv) := deviceUpdateData selfId raw message false
  match cameraClassify message with
  | some ev => (raw', [updEv, vivintEmit selfId ev [("message", .vDict message)]])
  | none => (raw', [updEv])

/-- The non-`update` events of a trace (the camera's domain events). -/
def domainEvents (evs : List Event) : List Event :=
  evs.filter (fun e => e.name ≠ UPDATE)

/-- Python exception kinds surfaced by the embedded code. -/
inductive PyErr where
  | keyError
  | typeError
  | attributeError
  | valueError
  | validationError
  | decodeError
deriving Repr, DecidableEq

/-- `Option`-level truthiness: `d.get(k)` then `if not x`. -/
def truthyOpt : Option PValue → Bool
  | none => false
  | some v => truthy v

/-- Replace the first element satisfying `pred` (in-place object mutation of
a list member in Python). -/
def updateFirstP {α : Type} (l : List α) (pred : α → Bool) (f : α → α) : List α :=
  match l with
  | [] => []
  | x :: xs => if pred x then f x :: xs else x :: updateFirstP xs pred f

/-- Remove the first element satisfying `pred` (`list.remove` of an element
found by a preceding `first_or_none`). -/
def removeFirstP {α : Type} (l : List α) (pred : α → Bool) : List α :=
  match l with
  | [] => []
  | x :: xs => if pred x then xs else x :: removeFirstP xs pred

/-- Python dict-keyed-by-int assignment `m[k] = v`. -/
def assocSet {α : Type} (l : List (Int × α)) (k : Int) (v : α) : List (Int × α) :=
  match l with
  | [] => [(k, v)]
  | (k', w) :: rest => if k' = k then (k', v) :: rest else (k', w) :: assocSet rest k v

/-- Lookup in an int-keyed assoc list. -/
def assocGet {α : Type} (l : List (Int × α)) (k : Int) : Option α :=
  match l with
  | [] => none
  | (k', v) :: rest => if k' = k then some v else assocGet rest k

/-- Modelled from the spec: `DeviceType.CAMERA` value (enums.py is not under
`src/`); the tag string only selects the camera push-dispatch override. -/
def CAMERA_TAG : String := "camera_device"

/-- A device attached to a panel: its id (set at construction from the raw
`_id`), whether it is a `Camera` (subclass dispatch for push messages), and
its raw data (`Entity.data`). -/
structure Device where
  id : Int
  isCamera : Bool
  raw : Dict
deriving Repr

/-- Python `str()` on the scalar values a device name can hold. -/
def pvToStr : PValue → String
  | .vStr s => s
  | .vInt n => toString n
  | .vBool b => if b then "True" else "False"
  | .vNull => "None"
  | _ => "object"

/-- The raw device-type tag as a string (`DeviceType(raw.get("t"))`; unknown
tags map to themselves, the enum never throws per the registry contract). -/
def typeTagStr (raw : Dict) : String :=
  match dget raw ATTR_TYPE with
  | some (.vStr s) => s
  | _ => "unknown"

/-- `VivintDevice.name` (src/vivintpy/devices/__init__.py:109-122): the raw
`n` field unless it is `None` or empty, else a synthesized
"type id" fallback. -/
def deviceName (d : Device) : String :=
  match dget d.raw ATTR_NAME with
  | some .vNull => typeTagStr d.raw ++ " " ++ toString d.id
  | some (.vStr s) => if s = "" then typeTagStr d.raw ++ " " ++ toString d.id else s
  | some v => pvToStr v
  | none => typeTagStr d.raw ++ " " ++ toString d.id

/-- `VivintDevice.device_type` as the raw type tag value. -/
def Device.typeTag (d : Device) : PValue :=
  (dget d.raw ATTR_TYPE).getD .vNull

/-- Dispatch of a push entry to a located device
(`device.handle_pubnub_message(device_data)`): the camera subclass override
or the default merge. -/
def devicePush (d : Device) (entry : Dict) : Device × List Event :=
  if d.isCamera then
    let (raw', evs) := cameraHandle d.id d.raw entry
    ({ d with raw := raw' }, evs)
  else
    let (raw', ev) := deviceUpdateData d.id d.raw entry false
    ({ d with raw := raw' }, [ev])

/-- State of an `AlarmPanel`: identity, its raw dict (`Entity.data`), the
attached device objects, the typed model's raw device entries
(`_data_model.devices`), and the unregistered map `{id: (name, type)}`. -/
structure PanelState where
  panelId : Int
  partitionId : Int
  panelRaw : Dict
  devices : List Device
  rawDevices : List Dict
  unregistered : List (Int × (String × PValue))
deriving Repr

/-- Coerce a value list to a list of dicts (pydantic `list[dict]`
validation). -/
def asDictList : List PValue → Except PyErr (List Dict)
  | [] => .ok []
  | .vDict d :: rest => do
    let ds ← asDictList rest
    .ok (d :: ds)
  | _ :: _ => .error .validationError

/-- The `devices` field of `AlarmPanelData` re-validated from a raw dict:
missing or `None` becomes `[]`, a single dict becomes a singleton, a list
must contain dicts (src/vivintpy/models.py `_ensure_list`). -/
def devicesOf (raw : Dict) : Except PyErr (List Dict) :=
  match dget raw MSG_DEVICES with
  | none => .ok []
  | some .vNull => .ok []
  | some (.vDict d) => .ok [d]
  | some (.vList l) => asDictList l
  | some _ => .error .validationError

/-- `AlarmPanelData.model_validate` essentials: `partition_id` (alias
`parid`) is required as an int, and the devices list is normalized. -/
def validatePanelData (raw : Dict) : Except PyErr (List Dict) :=
  match dget raw MSG_PARTITION_ID with
  | some (.vInt _) => devicesOf raw
  | _ => .error .validationError

/-- `AlarmPanel.update_data` (src/vivintpy/devices/alarm_panel.py:228-231):
`Entity.update_data` (merge, swallowed revalidation, `update` event through
the device emit) followed by an unguarded `AlarmPanelData.model_validate` of
the merged raw data (which resynchronizes `_data_model.devices` and raises
`ValidationError` on bad data; in Python the `update` event has already
fired when that raise happens). -/
def panelUpdateData (p : PanelState) (delta : Dict) (override : Bool) :
    Except PyErr (PanelState × Event) :=
  let raw' := updateRaw p.panelRaw delta override
  let ev := vivintEmit p.panelId UPDATE [("data", .vDict delta)]
  match validatePanelData raw' with
  | .ok devs => .ok ({ p with panelRaw := raw', rawDevices := devs }, ev)
  | .error e => .error e

/-- Find the raw device entry matching an id
(`first_or_none(self._data_model.devices, lambda r: r["_id"] == ...)`);
an entry examined without an `_id` key raises `KeyError`. -/
def rawFindById : List Dict → PValue → Except PyErr (Option Dict)
  | [], _ => .ok none
  | r :: rest, idv =>
    match dget r ATTR_ID with
    | none => .error .keyError
    | some rid => if pvEq rid idv then .ok (some r) else rawFindById rest idv

/-- Actions observed while handling a push message: events emitted on the
panel, events emitted on an attached device, background device-arrival
tasks spawned (`add_async_job`), user routing, system-level events, and the
dispatch of a message to an alarm panel. -/
inductive Act where
  | panelEvent (partitionId : Int) (e : Event)
  | deviceEvent (devId : Int) (e : Event)
  | asyncJob (devId : PValue)
  | userPush (uid : Int) (msg : Dict)
  | userEvent (uid : Int) (e : Event)
  | sysEvent (e : Event)
  | panelDispatch (partitionId : Int) (msg : Dict)
deriving Repr

/-- Python `x == "s"` where `x` came from `d.get(...)`. -/
def opEq (o : Option PValue) (s : String) : Bool :=
  match o with
  | none => false
  | some v => pvEq v (.vStr s)

/-- Construction of a new device from a raw entry
(`AlarmPanel.__parse_device_data`): class selected by the type tag, id read
from `_id` (`int(...)`; non-int raises). -/
def parseDevice (dd : Dict) : Except PyErr Device :=
  match dget dd ATTR_TYPE with
  | none => .error .keyError
  | some tv =>
    match dget dd ATTR_ID with
    | some (.vInt n) => .ok { id := n, isCamera := pvEq tv (.vStr CAMERA_TAG), raw := dd }
    | some _ => .error .valueError
    | none => .error .keyError

/-- `AlarmPanel.__parse_data`'s device loop for a refresh: update an
existing device in place (override) or construct and append a new one. -/
def parseDataDevices : List Dict → List Device → Except PyErr (List Device × List Act)
  | [], devices => .ok (devices, [])
  | dd :: rest, devices =>
    match dget dd ATTR_ID with
    | none => .error .keyError
    | some idv =>
      match devices.find? (fun d => pvEq (.vInt d.id) idv) with
      | some d =>
        let (raw', ev) := deviceUpdateData d.id d.raw dd true
        let devices' := updateFirstP devices (fun x => pvEq (.vInt x.id) idv)
          (fun x => { x with raw := raw' })
        do
          let (devices'', acts) ← parseDataDevices rest devices'
          .ok (devices'', Act.deviceEvent d.id ev :: acts)
      | none =>
        do
          let d ← parseDevice dd
          let (devices', acts) ← parseDataDevices rest (devices ++ [d])
          .ok (devices', acts)

/-- `PanelAttr.UNREGISTERED` wire key. -/
def ATTR_UNREGISTERED : String := "ureg"

/-- Rebuild the unregistered map from a raw `ureg` list
(`AlarmPanel.__parse_data`, src/vivintpy/devices/alarm_panel.py:356-363). -/
def parseUnregistered : List PValue → Except PyErr (List (Int × (String × PValue)))
  | [] => .ok []
  | .vDict dd :: rest =>
    match dget dd ATTR_ID, dget dd ATTR_NAME, dget dd ATTR_TYPE with
    | some (.vInt n), some nv, some tv => do
      let m ← parseUnregistered rest
      .ok (assocSet m n (pvToStr nv, tv))
    | some (.vInt _), _, _ => .error .keyError
    | some _, _, _ => .error .valueError
    | none, _, _ => .error .keyError
  | _ :: _ => .error .typeError

/-- `AlarmPanel.refresh(data, new_device=True)`
(src/vivintpy/devices/alarm_panel.py:233-247): extend the typed and raw
device lists with the incoming devices, re-run `__parse_data` over the
incoming data, and re-validate the model from the raw dict. -/
def panelRefreshNewDevice (p : PanelState) (data : Dict) :
    Except PyErr (PanelState × List Act) := do
  let newEntries ←
    match dget data MSG_DEVICES with
    | some (.vList l) => if l.isEmpty then pure [] else asDictList l
    | some (.vDict d) => if d.isEmpty then pure [] else .error .validationError
    | _ => pure []
  let oldList :=
    match dget p.panelRaw MSG_DEVICES with
    | some (.vList l) => l
    | _ => []
  let panelRaw' := dset p.panelRaw MSG_DEVICES
    (.vList (oldList ++ newEntries.map PValue.vDict))
  let (devices', acts) ← parseDataDevices newEntries p.devices
  let unreg' ←
    match dget data ATTR_UNREGISTERED with
    | some (.vList l) => if l.isEmpty then pure p.unregistered else parseUnregistered l
    | some .vNull => pure p.unregistered
    | none => pure p.unregistered
    | some v => if truthy v then .error .typeError else pure p.unregistered
  let rawDevs ← validatePanelData panelRaw'
  .ok ({ p with
          panelRaw := panelRaw', devices := devices',
          rawDevices := rawDevs, unregistered := unreg' }, acts)

/-- The per-entry body of `AlarmPanel.handle_pubnub_message`'s device loop
(src/vivintpy/devices/alarm_panel.py:272-313), folded over the entries. -/
def panelLoop (operation : Option PValue) (data : Dict) :
    List PValue → PanelState → Except PyErr (PanelState × List Act)
  | [], p => .ok (p, [])
  | entry :: rest, p =>
    match entry with
    | .vDict dd =>
      match dget dd ATTR_ID with
      | none => panelLoop operation data rest p
      | some idv =>
        if !truthy idv then panelLoop operation data rest p
        else if opEq operation OP_CREATE then do
          let (p', acts) ← panelRefreshNewDevice p data
          let (p'', acts') ← panelLoop operation data rest p'
          .ok (p'', acts ++ [Act.asyncJob idv] ++ acts')
        else
          match p.devices.find? (fun d => pvEq (.vInt d.id) idv) with
          | none => panelLoop operation data rest p
          | some device => do
            let rawFound ← rawFindById p.rawDevices idv
            if opEq operation OP_DELETE then
              let devices' := removeFirstP p.devices (fun d => pvEq (.vInt d.id) idv)
              let rawDevices' :=
                match rawFound with
                | some r => removeFirstP p.rawDevices (fun e => pvDictEq e r)
                | none => p.rawDevices
              let unreg' := assocSet p.unregistered device.id
                (deviceName device, device.typeTag)
              let ev := vivintEmit p.panelId DEVICE_DELETED
                [("device", .vDevice device.id)]
              let p' := { p with
                          devices := devices', rawDevices := rawDevices',
                          unregistered := unreg' }
              let (p'', acts) ← panelLoop operation data rest p'
              .ok (p'', Act.panelEvent p.partitionId ev :: acts)
            else
              let (device', evs) := devicePush device dd
              let devices' := updateFirstP p.devices (fun d => pvEq (.vInt d.id) idv)
                (fun _ => device')
              let rawDevices' :=
                match rawFound with
                | some r =>
                  if truthy (.vDict r) then
                    updateFirstP p.rawDevices (fun e => pvDictEq e r) (fun e => dmerge e dd)
                  else p.rawDevices
                | none => p.rawDevices
              let p' := { p with devices := devices', rawDevices := rawDevices' }
              let (p'', acts) ← panelLoop operation data rest p'
              .ok (p'', evs.map (Act.deviceEvent device.id) ++ acts)
    | _ => .error .attributeError

/-- `AlarmPanel.handle_pubnub_message`
(src/vivintpy/devices/alarm_panel.py:249-313): drop when the `da` key is
absent or `None`; apply a panel-level merge when `da` has no truthy device
list; else run the device loop. -/
def panelHandle (p : PanelState) (message : Dict) :
    Except PyErr (PanelState × List Act) :=
  let operation := dget message MSG_OPERATION
  match dget message MSG_DATA with
  | none => .ok (p, [])
  | some .vNull => .ok (p, [])
  | some (.vDict data) =>
    if !dtruthy data MSG_DEVICES then do
      let (p', ev) ← panelUpdateData p data false
      .ok (p', [Act.panelEvent p.partitionId ev])
    else
      match dget data MSG_DEVICES with
      | some (.vList entries) => panelLoop operation data entries p
      | _ => .error .typeError
  | some _ => .error .attributeError

/-- Modelled from the spec: `UserAttribute.LOCK_IDS` wire key (const.py is
not under `src/`); §4.7 specifies the add-one-lock sentinel as this key
with a `.1` suffix. -/
def USER_LOCK_IDS : String := "liids"

/-- `user.ADD_LOCK` sentinel key. -/
def USER_ADD_LOCK : String := USER_LOCK_IDS ++ ".1"

/-- A `User` entity: id plus raw data. -/
structure UserState where
  id : Int
  raw : Dict
deriving Repr

/-- `User.lock_ids` via the typed model (default empty list). -/
def userLockIds (raw : Dict) : List PValue :=
  match dget raw USER_LOCK_IDS with
  | some (.vList l) => l
  | _ => []

/-- `SystemUserData.model_validate` essentials: requires an int `_id`. -/
def validateUserData (raw : Dict) : Except PyErr Unit :=
  match dget raw ATTR_ID with
  | some (.vInt _) => .ok ()
  | _ => .error .validationError

/-- `User.handle_pubnub_message` (src/vivintpy/user.py:93-98): add-one-lock
rewriting, then `User.update_data` (merge, `update` event, unguarded
revalidation). -/
def userHandle (u : UserState) (message : Dict) :
    Except PyErr (UserState × List Act) :=
  let message' :=
    match dget message USER_ADD_LOCK with
    | some v =>
      ddel (dset message USER_LOCK_IDS (.vList (userLockIds u.raw ++ [v]))) USER_ADD_LOCK
    | none => message
  let raw' := updateRaw u.raw message' false
  let ev : Event := { name := UPDATE, payload := [("data", .vDict message')] }
  match validateUserData raw' with
  | .ok _ => .ok ({ u with raw := raw' }, [Act.userEvent u.id ev])
  | .error e => .error e

/-- `System.update_user_data` (src/vivintpy/system.py:79-86): route each
entry to the user with matching id; when an entry matches no user the
method logs and RETURNS, abandoning the remaining entries. -/
def updateUserData (users : List UserState) :
    List PValue → Except PyErr (List UserState × List Act)
  | [] => .ok (users, [])
  | dv :: rest =>
    match dv with
    | .vDict d =>
      match dget d ATTR_ID with
      | none => .error .keyError
      | some idv =>
        match users.find? (fun u => pvEq (.vInt u.id) idv) with
        | none => .ok (users, [])
        | some u => do
          let (u', acts) ← userHandle u d
          let users' := updateFirstP users (fun x => pvEq (.vInt x.id) idv) (fun _ => u')
          let (users'', acts') ← updateUserData users' rest
          .ok (users'', Act.userPush u.id d :: acts ++ acts')
    | _ => .error .typeError

/-- State of a `System`: panel id, raw data, panels, users. -/
structure SystemState where
  panid : Int
  raw : Dict
  panels : List PanelState
  users : List UserState
deriving Repr

/-- `System.update_data` = `Entity.update_data` (merge; the swallowed model
revalidation never raises; `update` event without a device key since
`System` is a plain `Entity`). -/
def sysUpdateData (s : SystemState) (delta : Dict) : SystemState × Event :=
  ({ s with raw := dmerge s.raw delta },
   { name := UPDATE, payload := [("data", .vDict delta)] })

/-- `System.handle_pubnub_message` (src/vivintpy/system.py:88-139):
`account_system`/op `u` routes a users subarray then merges the rest;
`account_partition` drops on falsy partition id or missing `da` key, else
dispatches the whole message to the matching panel; other types drop. -/
def sysHandle (s : SystemState) (message : Dict) :
    Except PyErr (SystemState × List Act) :=
  match dget message MSG_TYPE with
  | none => .error .keyError
  | some tv =>
    if pvEq tv (.vStr "account_system") then
      let operation := dget message MSG_OPERATION
      match dget message MSG_DATA with
      | some (.vDict data) =>
        if truthy (.vDict data) && opEq operation "u" then
          match dget data SYS_USERS with
          | some (.vList userEntries) => do
            let (users', acts) ← updateUserData s.users userEntries
            let data' := ddel data SYS_USERS
            let (s', ev) := sysUpdateData { s with users := users' } data'
            .ok (s', acts ++ [Act.sysEvent ev])
          | some _ => .error .typeError
          | none =>
            let (s', ev) := sysUpdateData s data
            .ok (s', [Act.sysEvent ev])
        else .ok (s, [])
      | some v =>
        if truthy v && opEq operation "u" then .error .typeError else .ok (s, [])
      | none => .ok (s, [])
    else if pvEq tv (.vStr "account_partition") then
      match dget message MSG_PARTITION_ID with
      | none => .ok (s, [])
      | some pid =>
        if !truthy pid then .ok (s, [])
        else if !dhas message MSG_DATA then .ok (s, [])
        else
          match s.panels.find? (fun p => pvEq (.vInt p.partitionId) pid) with
          | none => .ok (s, [])
          | some p => do
            let (p', acts) ← panelHandle p message
            let panels' :=
              updateFirstP s.panels (fun q => pvEq (.vInt q.partitionId) pid)
                (fun _ => p')
            .ok ({ s with panels := panels' },
                 Act.panelDispatch p.partitionId message :: acts)
    else .ok (s, [])

/-- An `Account` holding the loaded systems. -/
structure AccountState where
  systems : List SystemState
deriving Repr

/-- `Account.handle_pubnub_message` (src/vivintpy/account.py:159-175): drop
on falsy panel id; drop when no loaded system's id equals it; else forward
to that system. -/
def accountHandle (a : AccountState) (message : Dict) :
    Except PyErr (AccountState × List Act) :=
  match dget message MSG_PANEL_ID with
  | none => .ok (a, [])
  | some pid =>
    if !truthy pid then .ok (a, [])
    else
      match a.systems.find? (fun s => pvEq (.vInt s.panid) pid) with
      | none => .ok (a, [])
      | some s => do
        let (s', acts) ← sysHandle s message
        .ok ({ systems :=
                updateFirstP a.systems (fun t => pvEq (.vInt t.panid) pid)
                  (fun _ => s') }, acts)

/-! ## Upstream session validity and REST transport (`vivintpy/api.py`) -/

/-- The decoded shape of the upstream id-jwt as far as
`jwt.decode(..., verify_signature=False, verify_exp=True, leeway=-30)`
observes it: whether the string decodes at all, and its optional `exp`
claim (seconds). -/
structure IdJwt where
  malformed : Bool
  exp : Option Int
deriving Repr, DecidableEq

/-- The upstream token response held in `VivintSkyApi.__token`: an arbitrary
JSON object whose `access_token` / `refresh_token` / `id_token` entries may
each be absent. -/
structure UpToken where
  accessToken : Option String
  refreshToken : Option String
  idToken : Option IdJwt
deriving Repr, DecidableEq

/-- `VivintSkyApi.is_session_valid` (src/vivintpy/api.py:97-109): `False`
with no token; otherwise decode the held `id_token` with `leeway=-30`,
catching only `ExpiredSignatureError`.  PyJWT treats the token as expired
iff `exp <= now - leeway = now + 30`; a missing `exp` claim is not
validated; a missing `id_token` key raises `KeyError` and an undecodable
token raises `DecodeError`, neither of which is caught. -/
def isSessionValid (token : Option UpToken) (now : Int) : Except PyErr Bool :=
  match token with
  | none => .ok false
  | some t =>
    match t.idToken with
    | none => .error .keyError
    | some j =>
      if j.malformed then .error .decodeError
      else
        match j.exp with
        | none => .ok true
        | some e => if e ≤ now + 30 then .ok false else .ok true

/-- Error kinds of the transport (`vivintpy/exceptions.py` is not under
`src/`; the constructors mirror the exception classes raised in
`src/vivintpy/api.py`). -/
inductive ApiErrKind where
  | mfaRequired (msg : String)
  | authError (msg : String)
  | apiError (msg : String)
  | transportError (status : Nat)
  | sessionClosed
  | pyErr (e : PyErr)
deriving Repr, DecidableEq

/-- A scripted HTTP response. -/
structure HttpResp where
  status : Nat
  isJson : Bool
  body : Dict
  text : String
  location : Option String
deriving Repr

/-- Transport-relevant state of `VivintSkyApi`. -/
structure ApiState where
  token : Option UpToken
  mfaPending : Bool
  sessionClosed : Bool
deriving Repr

/-- The environment a single `__call` runs against: the clock, the effect a
`connect()` would have (the token it would install, or the error it would
raise), and the script of HTTP responses consumed by sends in order. -/
structure CallEnv where
  now : Int
  connectOutcome : Except ApiErrKind UpToken
  responses : List HttpResp
deriving Repr

/-- Observable actions of one `__call`. -/
inductive CallAct where
  | connect
  | send (withAuth : Bool)
deriving Repr, DecidableEq

/-- A request through `__call`: whether the target contains the auth host
(`AUTH_ENDPOINT in path`), and the request body. -/
structure CallReq where
  onAuthHost : Bool
  data : Option PValue
deriving Repr

/-- Result of `__call`: outcome, post state, action trace. -/
structure CallResult where
  result : Except ApiErrKind (Option Dict)
  state : ApiState
  trace : List CallAct
deriving Repr

/-- Message extraction for a 400/401/403 body
(src/vivintpy/api.py:1032-1041): the `message` field, else `error`
optionally joined with `error_description`. -/
def extractMessage (respData : Dict) : PValue :=
  let m := (dget respData "message").getD .vNull
  if truthy m then m
  else
    let e := (dget respData "error").getD .vNull
    match dget respData "error_description" with
    | some dsc => .vStr (pvToStr e ++ ": " ++ pvToStr dsc)
    | none => e

/-- Pre-flight re-authentication (src/vivintpy/api.py:974-975): when the
target is not on the auth host and the session is invalid, `connect` runs
before anything is sent. -/
def preflight (st : ApiState) (req : CallReq) (env : CallEnv) :
    Except ApiErrKind ApiState × List CallAct :=
  if req.onAuthHost then (.ok st, [])
  else
    match isSessionValid st.token env.now with
    | .error e => (.error (.pyErr e), [])
    | .ok true => (.ok st, [])
    | .ok false =>
      match env.connectOutcome with
      | .ok tok => (.ok { st with token := some tok }, [CallAct.connect])
      | .error k => (.error k, [CallAct.connect])

/-- Bearer injection (src/vivintpy/api.py:986-989): `true` iff the
`Authorization` header is added; reading a held token without an
`access_token` entry raises `KeyError`. -/
def bearerHeader (st : ApiState) (req : CallReq) : Except PyErr Bool :=
  if req.onAuthHost then .ok false
  else
    match st.token with
    | none => .ok false
    | some t =>
      match t.accessToken with
      | some _ => .ok true
      | none => .error .keyError

/-- Response classification (src/vivintpy/api.py:1028-1050). -/
def classifyResp (st : ApiState) (req : CallReq) (isMfaReq : Bool)
    (resp : HttpResp) : Except ApiErrKind (Option Dict) × ApiState :=
  let respData := if resp.isJson then resp.body else [("message", .vStr resp.text)]
  if resp.status = 200 then (.ok (some respData), st)
  else if resp.status = 302 then
    (.ok (some [("location", match resp.location with
                             | some l => .vStr l
                             | none => .vNull)]), st)
  else if resp.status = 400 ∨ resp.status = 401 ∨ resp.status = 403 then
    let msg := extractMessage respData
    if pvEq msg (.vStr "mfa_required") || isMfaReq then
      (.error (.mfaRequired (pvToStr msg)), { st with mfaPending := true })
    else if req.onAuthHost then (.error (.authError (pvToStr msg)), st)
    else (.error (.apiError (pvToStr msg)), st)
  else if 400 ≤ resp.status then (.error (.transportError resp.status), st)
  else (.ok none, st)

/-- A request "looks like an MFA submission": its payload is a mapping
containing the key `code` (src/vivintpy/api.py:981). -/
def isMfaRequest (req : CallReq) : Bool :=
  match req.data with
  | some (.vDict d) => dhas d "code"
  | _ => false

/-- The part of `__call` after the pre-flight re-auth: closed-session
check, MFA gate, bearer injection, the single send, and status
classification. -/
def afterPreflight (st1 : ApiState) (req : CallReq) (env : CallEnv)
    (tr : List CallAct) : CallResult :=
  if st1.sessionClosed then ⟨.error .sessionClosed, st1, tr⟩
  else if st1.mfaPending && !isMfaRequest req then
    ⟨.error (.mfaRequired "mfa_required"), st1, tr⟩
  else
    match bearerHeader st1 req with
    | .error e => ⟨.error (.pyErr e), st1, tr⟩
    | .ok withAuth =>
      match env.responses.head? with
      | none => ⟨.error (.transportError 0), st1, tr ++ [CallAct.send withAuth]⟩
      | some resp =>
        match classifyResp st1 req (isMfaRequest req) resp with
        | (res, st2) => ⟨res, st2, tr ++ [CallAct.send withAuth]⟩

/-- `VivintSkyApi.__call` (src/vivintpy/api.py:964-1050): pre-flight
re-auth, closed-session check, MFA gate, bearer injection, one send, and
status classification.  There is no retry: a 4xx/5xx response surfaces as
an error from the single send. -/
def callApi (st : ApiState) (req : CallReq) (env : CallEnv) : CallResult :=
  match preflight st req env with
  | (.error k, tr) => ⟨.error k, st, tr⟩
  | (.ok st1, tr) => afterPreflight st1 req env tr

/-- Number of HTTP sends in a trace. -/
def countSends (tr : List CallAct) : Nat :=
  tr.countP (fun a => match a with | .send _ => true | _ => false)

/-- The C1 claim as stated: a 401 response triggers an implicit `connect`
plus one retry of the original call, and an invalid session on a
non-auth-host target triggers `connect` before the send. -/
def claimC1 : Prop :=
  (∀ st req env r rest, env.responses = r :: rest → r.status = 401 →
    CallAct.connect ∈ (callApi st req env).trace ∧
    2 ≤ countSends (callApi st req env).trace) ∧
  (∀ st req env, req.onAuthHost = false →
    isSessionValid st.token env.now = .ok false →
    (callApi st req env).trace.head? = some CallAct.connect)

/-! ## Local token service (`vivintpy_api/deps.py`, `routers/auth.py`) -/

/-- The outcome of `get_current_user`. -/
structure TokenData where
  username : String
  vivintRefreshToken : String
deriving Repr, DecidableEq

/-- KV key `user:{u}:vivint_refresh_token`. -/
def kvKeyVivint (u : String) : String :=
  "user:" ++ u ++ ":vivint_refresh_token"

/-- `get_current_user` (src/vivintpy_api/deps.py:59-83) over the outcome of
`jose.jwt.decode` (signature/expiry verified; failures arrive as
`.error`) and the KV store.  Returns the 401 rejection or the
`TokenData`. -/
def getCurrentUser (decodeOutcome : Except Unit Dict)
    (kv : String → Option String) : Except Nat TokenData :=
  match decodeOutcome with
  | .error _ => .error 401
  | .ok payload =>
    let username := (dget payload "sub").getD .vNull
    let tokenType := dget payload "token_type"
    let vrt := (dget payload "vivint_refresh_token").getD .vNull
    if pvEq username .vNull || !(opEq tokenType "access") || pvEq vrt .vNull then
      .error 401
    else
      match kv (kvKeyVivint (pvToStr username)) with
      | none => .error 401
      | some stored =>
        if stored = "" then .error 401
        else if !(pvEq vrt (.vStr stored)) then .error 401
        else
          match username with
          | .vStr u =>
            match vrt with
            | .vStr s => .ok ⟨u, s⟩
            | _ => .error 401
          | _ => .error 401

/-- A local HMAC-signed JWT, identified with its claim set (the encoding is
deterministic and injective on claims, so token strings are modelled by
their decoded payloads). -/
structure LocalJwt where
  sub : Option String
  tokenType : Option String
  vrtClaim : Option String
  exp : Int
deriving Repr, DecidableEq

/-- `ACCESS_TOKEN_EXPIRE_MINUTES` default, in seconds. -/
def ACCESS_EXP_SECONDS : Int := 1800

/-- `REFRESH_TOKEN_EXPIRE_DAYS` default, in seconds. -/
def REFRESH_EXP_SECONDS : Int := 604800

/-- `deps.create_access_token` with `{"sub": u, "vivint_refresh_token": v}`. -/
def createAccessToken (u v : String) (now : Int) : LocalJwt :=
  { sub := some u, tokenType := some "access", vrtClaim := some v,
    exp := now + ACCESS_EXP_SECONDS }

/-- `deps.create_refresh_token` with `{"sub": u}`. -/
def createRefreshToken (u : String) (now : Int) : LocalJwt :=
  { sub := some u, tokenType := some "refresh", vrtClaim := none,
    exp := now + REFRESH_EXP_SECONDS }

/-- KV state of the local session store, per username. -/
structure KVState where
  apiRefresh : String → Option LocalJwt
  vivintRefresh : String → Option String

/-- `refresh_api_token` (src/vivintpy_api/routers/auth.py:240-318): decode
(expired tokens raise inside `jwt.decode` and map to 401), require
`sub` and `token_type == "refresh"`, compare to the KV-stored token
(mismatch deletes the entry and 401s; a match with no stored upstream
refresh token 500s), then rotate: issue a new access and refresh token and
overwrite the KV refresh entry. -/
def refreshApiToken (tok : LocalJwt) (st : KVState) (now : Int) :
    Except Nat (LocalJwt × LocalJwt) × KVState :=
  if tok.exp < now then (.error 401, st)
  else
    match tok.sub, tok.tokenType with
    | some u, some tt =>
      if tt ≠ "refresh" then (.error 401, st)
      else
        match st.apiRefresh u with
        | none => (.error 401, st)
        | some stored =>
          if stored ≠ tok then
            (.error 401,
             { st with apiRefresh := fun x => if x = u then none else st.apiRefresh x })
          else
            match st.vivintRefresh u with
            | none => (.error 500, st)
            | some vrt =>
              if vrt = "" then (.error 500, st)
              else
                let newRefresh := createRefreshToken u now
                (.ok (createAccessToken u vrt now, newRefresh),
                 { st with apiRefresh := fun x => if x = u then some newRefresh else st.apiRefresh x })
    | _, _ => (.error 401, st)

/-- Last binding of a key (Python dict update semantics make the last
duplicate win when an association list carries duplicates). -/
def dgetLast : Dict → String → Option PValue
  | [], _ => none
  | (k, v) :: rest, key =>
    match dgetLast rest key with
    | some w => some w
    | none => if k = key then some v else none

/-- Does a raw device entry's `_id` equal the integer id `k`? -/
def rawMatches (k : Int) (e : Dict) : Bool :=
  match dget e ATTR_ID with
  | some rid => pvEq rid (.vInt k)
  | none => false

/-- The names of the domain events a camera emits for one push message. -/
def cameraEmitted (selfId : Int) (raw m : Dict) : List String :=
  (domainEvents (cameraHandle selfId raw m).2).map Event.name

/-- The C6 claim as stated: after the default merge the camera emits
exactly the event whose key condition the message satisfies (presence of
the thumbnail-date key; presence of the ding-dong key; key-set exactly
id/type; the visitor flag or one of the two motion key-sets), the
conditions being disjoint, and nothing when none match. -/
def claimC6 : Prop :=
  ∀ (selfId : Int) (raw m : Dict),
    (dhas m CAM_THUMBNAIL_DATE = true →
       cameraEmitted selfId raw m = [THUMBNAIL_READY]) ∧
    (dhas m CAM_DING_DONG = true →
       cameraEmitted selfId raw m = [DOORBELL_DING]) ∧
    (keysetEq m [ATTR_ID, ATTR_TYPE] = true →
       cameraEmitted selfId raw m = [VIDEO_READY]) ∧
    ((dtruthy m CAM_VISITOR_DETECTED
        || keysetEq m [ATTR_ID, CAM_ACTUAL_TYPE, CAM_STATE]
        || keysetEq m [ATTR_ID, CAM_DETER_ON_DUTY, ATTR_TYPE]) = true →
       cameraEmitted selfId raw m = [MOTION_DETECTED]) ∧
    (dhas m CAM_THUMBNAIL_DATE = false → dhas m CAM_DING_DONG = false →
     keysetEq m [ATTR_ID, ATTR_TYPE] = false →
     (dtruthy m CAM_VISITOR_DETECTED
        || keysetEq m [ATTR_ID, CAM_ACTUAL_TYPE, CAM_STATE]
        || keysetEq m [ATTR_ID, CAM_DETER_ON_DUTY, ATTR_TYPE]) = false →
       cameraEmitted selfId raw m = [])

/-- The C7 claim as stated: for an `account_system` push with op `u`
carrying a users subarray, every entry of the subarray is routed by its id
to the matching user's `handle_push`, the subarray is removed, and the
remaining data is merged into the site. -/
def claimC7 : Prop :=
  ∀ (s : SystemState) (msg data : Dict) (entries : List PValue),
    dget msg MSG_TYPE = some (.vStr "account_system") →
    dget msg MSG_OPERATION = some (.vStr "u") →
    dget msg MSG_DATA = some (.vDict data) →
    dget data SYS_USERS = some (.vList entries) →
    ∀ st acts, sysHandle s msg = .ok (st, acts) →
      (∀ (d : Dict) (u : UserState), PValue.vDict d ∈ entries → u ∈ s.users →
        dget d ATTR_ID = some (.vInt u.id) → Act.userPush u.id d ∈ acts) ∧
      st.raw = dmerge s.raw (ddel data SYS_USERS)

/-- The C8 claim as stated: the session-validity check never raises,
returning `true` exactly when an id-jwt is held whose expiry clears the
30-second skew, and `false` when no token is held. -/
def claimC8 : Prop :=
  ∀ (token : Option UpToken) (now : Int), ∃ b,
    isSessionValid token now = .ok b ∧
    (b = true ↔ ∃ t j e, token = some t ∧ t.idToken = some j ∧
       j.malformed = false ∧ j.exp = some e ∧ now + 30 < e)

/-! ## Helper lemmas -/

mutual

theorem pvEq_refl : ∀ v : PValue, pvEq v v = true
  | .vNull => rfl
  | .vBool b => by cases b <;> rfl
  | .vInt n => by simp [pvEq]
  | .vStr s => by simp [pvEq]
  | .vList l => by simp [pvEq, pvListEq_refl l]
  | .vDict d => by simp [pvEq, pvDictEq_refl d]
  | .vDevice i => by simp [pvEq]

theorem pvListEq_refl : ∀ l : List PValue, pvListEq l l = true
  | [] => rfl
  | x :: xs => by simp [pvListEq, pvEq_refl x, pvListEq_refl xs]

theorem pvDictEq_refl : ∀ d : List (String × PValue), pvDictEq d d = true
  | [] => rfl
  | (k, v) :: rest => by simp [pvDictEq, pvEq_refl v, pvDictEq_refl rest]

end

theorem dget_dset_self (d : Dict) (k : String) (v : PValue) :
    dget (dset d k v) k = some v := by
  induction d with
  | nil => simp [dset, dget]
  | cons kv rest ih =>
    obtain ⟨k', w⟩ := kv
    by_cases h : k' = k <;> simp [dset, dget, h, ih]

theorem dget_dset_ne (d : Dict) (k k' : String) (v : PValue) (h : k' ≠ k) :
    dget (dset d k v) k' = dget d k' := by
  induction d with
  | nil => simp [dset, dget, Ne.symm h]
  | cons kv rest ih =>
    obtain ⟨k0, w⟩ := kv
    by_cases h0 : k0 = k
    · subst h0
      simp [dset, dget, Ne.symm h]
    · by_cases h1 : k0 = k'
      · subst h1
        simp [dset, dget, h0]
      · simp [dset, dget, h0, h1, ih]

theorem dget_ddel_ne (d : Dict) (k k' : String) (h : k' ≠ k) :
    dget (ddel d k) k' = dget d k' := by
  induction d with
  | nil => rfl
  | cons kv rest ih =>
    obtain ⟨k0, w⟩ := kv
    by_cases h0 : k0 = k
    · subst h0
      simp [ddel, dget, Ne.symm h, ih]
    · by_cases h1 : k0 = k'
      · subst h1
        simp [ddel, dget, h0]
      · simp [ddel, dget, h0, h1, ih]

theorem dget_dmerge (new old : Dict) (k : String) :
    dget (dmerge old new) k =
      match dgetLast new k with
      | some v => some v
      | none => dget old k := by
  induction new generalizing old with
  | nil => simp [dmerge, dgetLast]
  | cons kv rest ih =>
    obtain ⟨k0, v0⟩ := kv
    have hstep : dmerge old ((k0, v0) :: rest) = dmerge (dset old k0 v0) rest := rfl
    rw [hstep, ih]
    cases hrest : dgetLast rest k with
    | some w => simp [dgetLast, hrest]
    | none =>
      by_cases h0 : k0 = k
      · subst h0
        simp [dgetLast, hrest, dget_dset_self]
      · simp [dgetLast, hrest, h0, dget_dset_ne old k0 k v0 (Ne.symm h0)]

theorem assocGet_assocSet_self {α : Type} (l : List (Int × α)) (k : Int) (v : α) :
    assocGet (assocSet l k v) k = some v := by
  induction l with
  | nil => simp [assocSet, assocGet]
  | cons kv rest ih =>
    obtain ⟨k', w⟩ := kv
    by_cases h : k' = k <;> simp [assocSet, assocGet, h, ih]

theorem removeFirstP_not_mem {α : Type} (l : List α) (pred : α → Bool)
    (h : l.countP pred = 1) :
    ∀ x ∈ removeFirstP l pred, pred x = false := by
  induction l with
  | nil => simp [removeFirstP]
  | cons a t ih =>
    by_cases ha : pred a
    · have hc : t.countP pred = 0 := by
        have := List.countP_cons_of_pos pred t ha
        omega
      intro x hx
      simp [removeFirstP, ha] at hx
      have := List.countP_eq_zero.mp hc x hx
      simpa using this
    · have hc : t.countP pred = 1 := by
        have := List.countP_cons_of_neg pred t (by simpa using ha)
        omega
      intro x hx
      simp [removeFirstP, ha] at hx
      rcases hx with rfl | hx
      · simpa using ha
      · exact ih hc x hx

theorem updateFirstP_self {α : Type} (l : List α) (pred : α → Bool) (x : α)
    (h : l.find? pred = some x) :
    updateFirstP l pred (fun _ => x) = l := by
  induction l with
  | nil => simp [List.find?] at h
  | cons a t ih =>
    by_cases ha : pred a
    · have hax : a = x := by
        have hp := List.find?_cons_of_pos (p := pred) t ha
        rw [hp] at h
        exact Option.some_inj.mp h
      subst hax
      simp [updateFirstP, ha]
    · have hn := List.find?_cons_of_neg (p := pred) t (by simpa using ha)
      rw [hn] at h
      simp [updateFirstP, ha, ih h]

theorem pvEq_int_trans (a b : PValue) (k : Int) (h1 : pvEq a b = true)
    (h2 : pvEq b (.vInt k) = true) : pvEq a (.vInt k) = true := by
  cases a <;> cases b <;> simp_all [pvEq]

theorem pvDictEq_dget (a b : Dict) (h : pvDictEq a b = true) (key : String) :
    (dget a key = none ∧ dget b key = none) ∨
    (∃ va vb, dget a key = some va ∧ dget b key = some vb ∧ pvEq va vb = true) := by
  induction a generalizing b with
  | nil =>
    cases b with
    | nil => exact Or.inl ⟨rfl, rfl⟩
    | cons kv rest => simp [pvDictEq] at h
  | cons kv rest ih =>
    obtain ⟨ka, va⟩ := kv
    cases b with
    | nil => simp [pvDictEq] at h
    | cons kvb restb =>
      obtain ⟨kb, vb⟩ := kvb
      simp only [pvDictEq, Bool.and_eq_true, beq_iff_eq] at h
      obtain ⟨⟨hk, hv⟩, hrest⟩ := h
      subst hk
      by_cases hkey : ka = key
      · subst hkey
        exact Or.inr ⟨va, vb, by simp [dget], by simp [dget], hv⟩
      · have := ih restb hrest
        simpa [dget, hkey] using this

theorem dgetLast_dset_ne (d : Dict) (k k' : String) (v : PValue) (h : k' ≠ k) :
    dgetLast (dset d k v) k' = dgetLast d k' := by
  induction d with
  | nil => simp [dset, dgetLast, Ne.symm h]
  | cons kv rest ih =>
    obtain ⟨k0, w⟩ := kv
    by_cases h0 : k0 = k
    · subst h0
      cases hr : dgetLast rest k' <;>
        simp [dset, dgetLast, hr, Ne.symm h]
    · cases hr : dgetLast (dset rest k v) k' <;>
        cases hr' : dgetLast rest k' <;>
        simp_all [dset, dgetLast, h0]

theorem dgetLast_ddel_ne (d : Dict) (k k' : String) (h : k' ≠ k) :
    dgetLast (ddel d k) k' = dgetLast d k' := by
  induction d with
  | nil => rfl
  | cons kv rest ih =>
    obtain ⟨k0, w⟩ := kv
    by_cases h0 : k0 = k
    · subst h0
      have hd : ddel ((k0, w) :: rest) k0 = ddel rest k0 := by simp [ddel]
      rw [hd, ih]
      cases hr : dgetLast rest k' <;> simp [dgetLast, hr, Ne.symm h]
    · cases hr : dgetLast (ddel rest k) k' <;>
        cases hr' : dgetLast rest k' <;>
        simp_all [ddel, dgetLast, h0]

theorem updateFirstP_map {α β : Type} (l : List α) (pred : α → Bool) (f : α → α)
    (g : α → β) (h : ∀ x, pred x = true → g (f x) = g x) :
    (updateFirstP l pred f).map g = l.map g := by
  induction l with
  | nil => rfl
  | cons a t ih =>
    by_cases ha : pred a
    · simp [updateFirstP, ha, h a ha]
    · simp [updateFirstP, ha, ih]

theorem rawFind_delete (l : List Dict) (k : Int)
    (hkeys : ∀ e ∈ l, (dget e ATTR_ID).isSome)
    (hone : l.countP (rawMatches k) = 1) :
    ∃ r, rawFindById l (.vInt k) = .ok (some r) ∧ rawMatches k r = true ∧
      ∀ e ∈ removeFirstP l (fun x => pvDictEq x r), rawMatches k e = false := by
  induction l with
  | nil => simp [List.countP_nil] at hone
  | cons h t ih =>
    have hh := hkeys h (List.mem_cons_self ..)
    obtain ⟨hv, hhv⟩ := Option.isSome_iff_exists.mp hh
    by_cases hm : rawMatches k h
    · refine ⟨h, ?_, hm, ?_⟩
      · have hpv : pvEq hv (.vInt k) = true := by
          unfold rawMatches at hm
          rw [hhv] at hm
          exact hm
        simp [rawFindById, hhv, hpv]
      · have hc0 : t.countP (rawMatches k) = 0 := by
          have := List.countP_cons_of_pos (rawMatches k) t hm
          omega
        intro e he
        have hr : removeFirstP (h :: t) (fun x => pvDictEq x h) = t := by
          simp [removeFirstP, pvDictEq_refl]
        rw [hr] at he
        simpa using List.countP_eq_zero.mp hc0 e he
    · have hc : t.countP (rawMatches k) = 1 := by
        have := List.countP_cons_of_neg (rawMatches k) t (by simpa using hm)
        omega
      obtain ⟨r, hfind, hrm, hrem⟩ :=
        ih (fun e he => hkeys e (List.mem_cons_of_mem _ he)) hc
      refine ⟨r, ?_, hrm, ?_⟩
      · have hpv : pvEq hv (.vInt k) = false := by
          unfold rawMatches at hm
          rw [hhv] at hm
          simpa using hm
        simp [rawFindById, hhv, hpv, hfind]
      · have hne : pvDictEq h r = false := by
          by_contra hcon
          have hdeq : pvDictEq h r = true := by simpa using hcon
          rcases pvDictEq_dget h r hdeq ATTR_ID with ⟨h1, _⟩ | ⟨x, y, hx, hy, hxy⟩
          · rw [hhv] at h1
            cases h1
          · have hyk : pvEq y (.vInt k) = true := by
              unfold rawMatches at hrm
              rw [hy] at hrm
              exact hrm
            have hxk : pvEq x (.vInt k) = true := pvEq_int_trans x y k hxy hyk
            rw [hhv] at hx
            obtain rfl := Option.some_inj.mp hx
            unfold rawMatches at hm
            rw [hhv] at hm
            simp [hxk] at hm
        intro e he
        simp only [removeFirstP, hne, Bool.false_eq_true, if_false,
          List.mem_cons] at he
        rcases he with rfl | he
        · simpa using hm
        · exact hrem e he

theorem cameraEmitted_classify (selfId : Int) (raw m : Dict) :
    cameraEmitted selfId raw m =
      match cameraClassify m with
      | some e => [e]
      | none => [] := by
  unfold cameraEmitted cameraHandle
  cases hc : cameraClassify m with
  | none => simp [domainEvents, deviceUpdateData, vivintEmit, UPDATE]
  | some e =>
    have he : e = THUMBNAIL_READY ∨ e = DOORBELL_DING ∨ e = VIDEO_READY ∨
        e = MOTION_DETECTED := by
      unfold cameraClassify at hc
      split at hc
      · exact Or.inl (Option.some_inj.mp hc).symm
      · split at hc
        · exact Or.inr (Or.inl (Option.some_inj.mp hc).symm)
        · split at hc
          · exact Or.inr (Or.inr (Or.inl (Option.some_inj.mp hc).symm))
          · split at hc
            · exact Or.inr (Or.inr (Or.inr (Option.some_inj.mp hc).symm))
            · exact Option.noConfusion hc
    have hne : (decide (e = "update") : Bool) = false := by
      rcases he with rfl | rfl | rfl | rfl <;> decide
    simp [domainEvents, deviceUpdateData, vivintEmit, UPDATE, List.filter, hne]

theorem preflight_trace (st : ApiState) (req : CallReq) (env : CallEnv) :
    (preflight st req env).2 = [] ∨ (preflight st req env).2 = [CallAct.connect] := by
  unfold preflight
  split
  · exact Or.inl rfl
  · split
    · exact Or.inl rfl
    · exact Or.inl rfl
    · split
      · exact Or.inr rfl
      · exact Or.inr rfl

theorem preflight_countSends (st : ApiState) (req : CallReq) (env : CallEnv) :
    countSends (preflight st req env).2 = 0 := by
  rcases preflight_trace st req env with h | h <;> rw [h] <;> rfl

theorem preflight_connect (st : ApiState) (req : CallReq) (env : CallEnv)
    (h1 : req.onAuthHost = false)
    (h2 : isSessionValid st.token env.now = .ok false) :
    (preflight st req env).2 = [CallAct.connect] := by
  unfold preflight
  rw [h1]
  simp only [Bool.false_eq_true, if_false, h2]
  split <;> rfl

theorem pair_first_error {α : Type} {c : Prop} [Decidable c]
    (a b : ApiErrKind) (s1 s2 : ApiState) :
    ∃ k, (if c then ((Except.error a : Except ApiErrKind α), s1)
          else (Except.error b, s2)).1 = Except.error k := by
  split_ifs <;> exact ⟨_, rfl⟩

theorem classifyResp_401 (st : ApiState) (req : CallReq) (mfa : Bool)
    (resp : HttpResp) (h : resp.status = 401) :
    ∃ k, (classifyResp st req mfa resp).1 = .error k := by
  unfold classifyResp
  rw [h]
  rw [if_neg (by omega : ¬ (401 = 200)), if_neg (by omega : ¬ (401 = 302)),
    if_pos (by omega : (401 = 400 ∨ 401 = 401 ∨ 401 = 403))]
  split_ifs <;> first | exact ⟨_, rfl⟩ | exact pair_first_error _ _ _ _

theorem afterPreflight_trace (st1 : ApiState) (req : CallReq) (env : CallEnv)
    (tr : List CallAct) :
    (afterPreflight st1 req env tr).trace = tr ∨
    ∃ b, (afterPreflight st1 req env tr).trace = tr ++ [CallAct.send b] := by
  unfold afterPreflight
  split
  · exact Or.inl rfl
  · split
    · exact Or.inl rfl
    · split
      · exact Or.inl rfl
      · split
        · exact Or.inr ⟨_, rfl⟩
        · split
          · exact Or.inr ⟨_, rfl⟩

theorem callApi_shape (st : ApiState) (req : CallReq) (env : CallEnv) :
    (callApi st req env).trace = (preflight st req env).2 ∨
    ∃ b, (callApi st req env).trace = (preflight st req env).2 ++ [CallAct.send b] := by
  unfold callApi
  rcases hpre : preflight st req env with ⟨res, tr⟩
  cases res with
  | error k => exact Or.inl rfl
  | ok st1 => exact afterPreflight_trace st1 req env tr

theorem callApi_sends_le_one (st : ApiState) (req : CallReq) (env : CallEnv) :
    countSends (callApi st req env).trace ≤ 1 := by
  have hp := preflight_countSends st req env
  rcases callApi_shape st req env with h | ⟨b, h⟩ <;> rw [h]
  · rw [hp]
    omega
  · unfold countSends at hp ⊢
    rw [List.countP_append, hp]
    simp [List.countP_cons, List.countP_nil]

theorem callApi_preflight_connect (st : ApiState) (req : CallReq) (env : CallEnv)
    (h1 : req.onAuthHost = false)
    (h2 : isSessionValid st.token env.now = .ok false) :
    (callApi st req env).trace.head? = some CallAct.connect := by
  have hc := preflight_connect st req env h1 h2
  rcases callApi_shape st req env with h | ⟨b, h⟩ <;> rw [h, hc] <;> rfl

theorem afterPreflight_sent (st1 : ApiState) (req : CallReq) (env : CallEnv)
    (tr : List CallAct) (r : HttpResp) (rest : List HttpResp)
    (hr : env.responses = r :: rest) (htr : countSends tr = 0)
    (hs : 1 ≤ countSends (afterPreflight st1 req env tr).trace) :
    (afterPreflight st1 req env tr).result =
      (classifyResp st1 req (isMfaRequest req) r).1 := by
  unfold afterPreflight at hs ⊢
  by_cases h1 : st1.sessionClosed
  · simp [h1, htr] at hs
  · rw [if_neg h1] at hs ⊢
    by_cases h2 : st1.mfaPending && !isMfaRequest req
    · simp [h2, htr] at hs
    · rw [if_neg (by simpa using h2)] at hs ⊢
      cases hb : bearerHeader st1 req with
      | error e =>
        rw [hb] at hs
        simp [htr] at hs
      | ok withAuth =>
        rw [hr]
        simp only [List.head?_cons]

theorem callApi_401_error (st : ApiState) (req : CallReq) (env : CallEnv)
    (r : HttpResp) (rest : List HttpResp)
    (hr : env.responses = r :: rest) (h401 : r.status = 401)
    (hsend : 1 ≤ countSends (callApi st req env).trace) :
    ∃ k, (callApi st req env).result = .error k := by
  unfold callApi at hsend ⊢
  rcases hpre : preflight st req env with ⟨res, tr⟩
  rw [hpre] at hsend
  have htr0 : countSends tr = 0 := by
    have := preflight_countSends st req env
    rw [hpre] at this
    exact this
  cases res with
  | error k =>
    simp [htr0] at hsend
  | ok st1 =>
    have := afterPreflight_sent st1 req env tr r rest hr htr0 hsend
    rw [this]
    exact classifyResp_401 st1 req (isMfaRequest req) r h401

theorem except_bind_ok {ε α β : Type} (a : α) (f : α → Except ε β) :
    (Except.ok a : Except ε α) >>= f = f a := rfl

theorem updateUserData_routes :
    ∀ (entries : List PValue) (users : List UserState),
    (∀ e ∈ entries, ∃ (d : Dict) (i : Int), e = .vDict d ∧
       i ∈ users.map UserState.id ∧
       dget d ATTR_ID = some (.vInt i) ∧ dgetLast d ATTR_ID = some (.vInt i)) →
    ∃ users' acts, updateUserData users entries = .ok (users', acts) ∧
      users'.map UserState.id = users.map UserState.id ∧
      (∀ (d : Dict) (i : Int), PValue.vDict d ∈ entries →
         dget d ATTR_ID = some (.vInt i) → Act.userPush i d ∈ acts) := by
  intro entries
  induction entries with
  | nil =>
    intro users _
    exact ⟨users, [], rfl, rfl, by simp⟩
  | cons e rest ih =>
    intro users hmatch
    obtain ⟨d, i, rfl, hid, hdget, hlast⟩ := hmatch e (List.mem_cons_self ..)
    obtain ⟨u, hu, hui⟩ := List.mem_map.mp hid
    -- the find? over users succeeds at some u' with u'.id = i
    have hfs : (users.find? (fun x => pvEq (.vInt x.id) (.vInt i))).isSome := by
      rw [List.find?_isSome]
      exact ⟨u, hu, by simp [pvEq, hui]⟩
    obtain ⟨u', hfind⟩ := Option.isSome_iff_exists.mp hfs
    have hu'i : u'.id = i := by
      have := List.find?_some hfind
      simpa [pvEq] using this
    -- the message after the add-one-lock rewrite keeps its last _id binding
    have hADD : (ATTR_ID : String) ≠ USER_ADD_LOCK := by decide
    have hLOCK : (ATTR_ID : String) ≠ USER_LOCK_IDS := by decide
    set M : Dict := (match dget d USER_ADD_LOCK with
      | some v => ddel (dset d USER_LOCK_IDS
          (.vList (userLockIds u'.raw ++ [v]))) USER_ADD_LOCK
      | none => d) with hM
    have hlastM : dgetLast M ATTR_ID = some (.vInt i) := by
      rw [hM]
      cases hadd : dget d USER_ADD_LOCK with
      | none => exact hlast
      | some v =>
        rw [dgetLast_ddel_ne _ _ _ hADD, dgetLast_dset_ne _ _ _ _ hLOCK]
        exact hlast
    -- userHandle on u' succeeds
    have hvalid : validateUserData (updateRaw u'.raw M false) = .ok () := by
      have hmerged := dget_dmerge M u'.raw ATTR_ID
      rw [hlastM] at hmerged
      unfold validateUserData updateRaw
      simp only [Bool.false_eq_true, if_false]
      rw [hmerged]
    set u2 : UserState := { u' with raw := updateRaw u'.raw M false } with hu2
    have hrun : userHandle u' d = .ok (u2,
        [Act.userEvent u'.id { name := UPDATE, payload := [("data", .vDict M)] }]) := by
      rw [hu2]
      unfold userHandle
      rw [← hM]
      simp only [hvalid]
    have hu2id : u2.id = u'.id := by rw [hu2]
    -- updated users list keeps the same ids
    have hmapeq : (updateFirstP users (fun x => pvEq (.vInt x.id) (.vInt i))
        (fun _ => u2)).map UserState.id = users.map UserState.id := by
      apply updateFirstP_map
      intro x hx
      have : x.id = i := by simpa [pvEq] using hx
      simp [this, hu2id, hu'i]
    -- recurse on the rest
    obtain ⟨users'', acts', hrec, hmap'', hmem'⟩ := ih
      (updateFirstP users (fun x => pvEq (.vInt x.id) (.vInt i)) (fun _ => u2))
      (by
        intro e he
        obtain ⟨d2, i2, rfl, hid2, h1, h2⟩ := hmatch e (List.mem_cons_of_mem _ he)
        exact ⟨d2, i2, rfl, by rw [hmapeq]; exact hid2, h1, h2⟩)
    refine ⟨users'', Act.userPush u'.id d ::
      [Act.userEvent u'.id { name := UPDATE, payload := [("data", .vDict M)] }]
        ++ acts', ?_, ?_, ?_⟩
    · unfold updateUserData
      simp only [hdget, hfind, hrun, except_bind_ok]
      simp only [hrec, except_bind_ok]
    · rw [hmap'', hmapeq]
    · intro d2 i2 hd2 hdg2
      rcases List.mem_cons.mp hd2 with heq | hmem
      · have hd2d : d2 = d := by
          injection heq
        subst hd2d
        have : PValue.vInt i2 = PValue.vInt i := by
          rw [hdget] at hdg2
          exact (Option.some_inj.mp hdg2.symm)
        have hii : i2 = i := by injection this
        subst hii
        rw [hu'i]
        exact List.mem_cons_self ..
      · exact List.mem_cons_of_mem _ (List.mem_append_right _ (hmem' d2 i2 hmem hdg2))

/-! ## Claim theorems -/

/-- C8 (counterexample): the claim that the session-validity check never
raises and returns true iff a valid unexpired id-jwt is held is false on
the code: with a held token whose dict lacks an `id_token` entry,
`is_session_valid` raises `KeyError` instead of returning a Bool. -/
theorem C8_session_validity_counterexample : ¬ claimC8 := by
  intro h
  obtain ⟨b, hb, _⟩ := h (some ⟨some "at", none, none⟩) 0
  simp [isSessionValid] at hb

/-- C8 (amended): `is_session_valid` returns false when no token is held;
with a held well-formed id-jwt it returns true iff the jwt has no `exp`
claim or its expiry is more than 30 seconds in the future (`leeway=-30`);
with a held token lacking an `id_token` entry it raises `KeyError`, and
with a malformed id-jwt it raises `DecodeError`. -/
theorem C8_session_validity_amended :
    (∀ now : Int, isSessionValid none now = .ok false) ∧
    (∀ (t : UpToken) (j : IdJwt) (now : Int), t.idToken = some j →
       j.malformed = false → j.exp = none →
       isSessionValid (some t) now = .ok true) ∧
    (∀ (t : UpToken) (j : IdJwt) (e now : Int), t.idToken = some j →
       j.malformed = false → j.exp = some e →
       (isSessionValid (some t) now = .ok true ↔ now + 30 < e)) ∧
    (∀ (t : UpToken) (now : Int), t.idToken = none →
       isSessionValid (some t) now = .error .keyError) ∧
    (∀ (t : UpToken) (j : IdJwt) (now : Int), t.idToken = some j →
       j.malformed = true → isSessionValid (some t) now = .error .decodeError) := by
  refine ⟨fun _ => rfl, ?_, ?_, ?_, ?_⟩
  · intro t j now ht hm he
    simp [isSessionValid, ht, hm, he]
  · intro t j e now ht hm he
    have hred : isSessionValid (some t) now =
        (if e ≤ now + 30 then .ok false else .ok true) := by
      simp [isSessionValid, ht, hm, he]
    rw [hred]
    split_ifs with hc
    · constructor
      · intro hcon
        simp at hcon
      · intro hcon
        exact absurd hcon (by omega)
    · constructor
      · intro _
        omega
      · intro _
        rfl
  · intro t now ht
    simp [isSessionValid, ht]
  · intro t j now ht hm
    simp [isSessionValid, ht, hm]

/-- C9: every event emitted through a device whose payload lacks a
"device" key is delivered to listeners with the emitting device inserted
under that key; in particular the `update` event of a device's
`update_data` always carries the emitting device. -/
theorem C9_emit_inserts_device :
    (∀ (selfId : Int) (name : String) (data : Dict),
       dget data DEVICE_KEY = none →
       dget (vivintEmit selfId name data).payload DEVICE_KEY =
         some (.vDevice selfId)) ∧
    (∀ (selfId : Int) (raw delta : Dict) (override : Bool),
       dget (deviceUpdateData selfId raw delta override).2.payload DEVICE_KEY =
         some (.vDevice selfId)) := by
  constructor
  · intro selfId name data h
    unfold vivintEmit
    rw [h]
    exact dget_dset_self data DEVICE_KEY (.vDevice selfId)
  · intro selfId raw delta override
    unfold deviceUpdateData vivintEmit
    have h : dget [("data", PValue.vDict delta)] DEVICE_KEY = none := by
      simp [dget, DEVICE_KEY]
    rw [h]
    exact dget_dset_self _ DEVICE_KEY (.vDevice selfId)

/-- C9 (witness): concrete instantiation of the hypothesis-bearing part. -/
theorem C9_emit_inserts_device_witness :
    dget (vivintEmit 7 DEVICE_DELETED [("data", .vDict [])]).payload DEVICE_KEY =
      some (.vDevice 7) ∧
    dget (deviceUpdateData 7 [] [("x", .vInt 1)] false).2.payload DEVICE_KEY =
      some (.vDevice 7) :=
  ⟨C9_emit_inserts_device.1 7 DEVICE_DELETED [("data", .vDict [])] rfl,
   C9_emit_inserts_device.2 7 [] [("x", .vInt 1)] false⟩

/-- C10: a realtime push message with no panel id, or whose panel id
matches no loaded system, is dropped by the account dispatcher: the
result is `ok`, no action occurs, and no state is mutated. -/
theorem C10_account_drop (a : AccountState) (msg : Dict)
    (h : dget msg MSG_PANEL_ID = none ∨
      ∀ s ∈ a.systems,
        pvEq (.vInt s.panid) ((dget msg MSG_PANEL_ID).getD .vNull) = false) :
    accountHandle a msg = .ok (a, []) := by
  unfold accountHandle
  cases hp : dget msg MSG_PANEL_ID with
  | none => rfl
  | some pid =>
    rcases h with h | h
    · rw [hp] at h
      cases h
    · by_cases ht : truthy pid
      · have hfind : a.systems.find? (fun s => pvEq (.vInt s.panid) pid) = none := by
          rw [List.find?_eq_none]
          intro s hs
          have hv := h s hs
          rw [hp] at hv
          simp only [Option.getD_some] at hv
          simp [hv]
        simp [ht, hfind]
      · simp [ht]

/-- C10 (witness): a message with no panel id is dropped. -/
theorem C10_account_drop_witness :
    accountHandle { systems := [] } [("t", .vStr "account_system")] =
      .ok ({ systems := [] }, []) :=
  C10_account_drop { systems := [] } [("t", .vStr "account_system")] (Or.inl rfl)

/-- C2: a protected request whose JWT decodes but has a missing or
non-"access" `token_type`, a missing `vivint_refresh_token` claim, or
whose KV-stored upstream refresh token is absent or differs from the
claim, is rejected with 401. -/
theorem C2_protected_401 (payload : Dict) (kv : String → Option String)
    (h : opEq (dget payload "token_type") "access" = false ∨
      dget payload "vivint_refresh_token" = none ∨
      kv (kvKeyVivint (pvToStr ((dget payload "sub").getD .vNull))) = none ∨
      ∀ s, kv (kvKeyVivint (pvToStr ((dget payload "sub").getD .vNull))) = some s →
        pvEq ((dget payload "vivint_refresh_token").getD .vNull) (.vStr s) = false) :
    getCurrentUser (.ok payload) kv = .error 401 := by
  unfold getCurrentUser
  dsimp only
  by_cases h1 : (pvEq ((dget payload "sub").getD .vNull) .vNull
      || !opEq (dget payload "token_type") "access"
      || pvEq ((dget payload "vivint_refresh_token").getD .vNull) .vNull) = true
  · simp only [h1, if_true]
  · rw [if_neg h1]
    have hB : opEq (dget payload "token_type") "access" = true := by
      cases hx : opEq (dget payload "token_type") "access"
      · exact absurd (by simp [hx]) h1
      · rfl
    have hC : pvEq ((dget payload "vivint_refresh_token").getD .vNull) .vNull
        = false := by
      cases hx : pvEq ((dget payload "vivint_refresh_token").getD .vNull) .vNull
      · rfl
      · exact absurd (by simp [hx]) h1
    rcases h with hd | hd | hd | hd
    · rw [hd] at hB
      cases hB
    · rw [hd] at hC
      simp [pvEq] at hC
    · rw [hd]
    · cases hkv : kv (kvKeyVivint (pvToStr ((dget payload "sub").getD .vNull))) with
      | none => rfl
      | some s =>
        have hne := hd s hkv
        by_cases hs : s = ""
        · simp [hs]
        · simp [hs, hne]

/-- C2 (witness): a token whose `token_type` is "refresh" is rejected. -/
theorem C2_protected_401_witness :
    getCurrentUser (.ok [("sub", .vStr "alice"), ("token_type", .vStr "refresh")])
      (fun _ => none) = .error 401 :=
  C2_protected_401 [("sub", .vStr "alice"), ("token_type", .vStr "refresh")]
    (fun _ => none) (Or.inl rfl)

/-- C8 (witness): concrete instantiations of the amended theorem. -/
theorem C8_session_validity_amended_witness :
    isSessionValid none 0 = .ok false ∧
    isSessionValid (some ⟨some "a", none, some ⟨false, none⟩⟩) 0 = .ok true ∧
    (isSessionValid (some ⟨some "a", none, some ⟨false, some 100⟩⟩) 0 = .ok true ↔
      (0 : Int) + 30 < 100) ∧
    isSessionValid (some ⟨some "a", none, none⟩) 0 = .error .keyError ∧
    isSessionValid (some ⟨some "a", none, some ⟨true, none⟩⟩) 0 =
      .error .decodeError :=
  ⟨C8_session_validity_amended.1 0,
   C8_session_validity_amended.2.1 ⟨some "a", none, some ⟨false, none⟩⟩
     ⟨false, none⟩ 0 rfl rfl rfl,
   C8_session_validity_amended.2.2.1 ⟨some "a", none, some ⟨false, some 100⟩⟩
     ⟨false, some 100⟩ 100 0 rfl rfl rfl,
   C8_session_validity_amended.2.2.2.1 ⟨some "a", none, none⟩ 0 rfl,
   C8_session_validity_amended.2.2.2.2 ⟨some "a", none, some ⟨true, none⟩⟩
     ⟨true, none⟩ 0 rfl rfl⟩

/-- C3: refresh-token rotation.  (a) A successful refresh rotates the KV
entry to the newly issued refresh token; a second use of the same token
then mismatches the stored value, deletes the KV entry, and fails with
401.  (b) When the presented token matches the stored one but the
KV-stored upstream refresh token is missing, the endpoint fails with
500. -/
theorem C3_refresh_rotation :
    (∀ (u : String) (tok : LocalJwt) (st : KVState) (now now2 : Int) (vrt : String),
       tok.sub = some u → tok.tokenType = some "refresh" →
       ¬ tok.exp < now → ¬ tok.exp < now2 →
       st.apiRefresh u = some tok →
       st.vivintRefresh u = some vrt → vrt ≠ "" →
       createRefreshToken u now ≠ tok →
       (refreshApiToken tok st now).1 =
         .ok (createAccessToken u vrt now, createRefreshToken u now) ∧
       ((refreshApiToken tok st now).2).apiRefresh u =
         some (createRefreshToken u now) ∧
       (refreshApiToken tok ((refreshApiToken tok st now).2) now2).1 =
         .error 401 ∧
       ((refreshApiToken tok ((refreshApiToken tok st now).2) now2).2).apiRefresh u
         = none) ∧
    (∀ (u : String) (tok : LocalJwt) (st : KVState) (now : Int),
       tok.sub = some u → tok.tokenType = some "refresh" → ¬ tok.exp < now →
       st.apiRefresh u = some tok → st.vivintRefresh u = none →
       (refreshApiToken tok st now).1 = .error 500) := by
  constructor
  · intro u tok st now now2 vrt hsub htt hexp hexp2 hstored hvrt hvrtne hne
    have hfirst : refreshApiToken tok st now =
        (.ok (createAccessToken u vrt now, createRefreshToken u now),
         { st with apiRefresh := fun x =>
             if x = u then some (createRefreshToken u now) else st.apiRefresh x }) := by
      unfold refreshApiToken
      rw [if_neg hexp, hsub, htt]
      dsimp only
      rw [if_neg (by simp), hstored]
      dsimp only
      rw [if_neg (by simp), hvrt]
      dsimp only
      rw [if_neg hvrtne]
    refine ⟨by rw [hfirst], by rw [hfirst]; simp, ?_, ?_⟩
    · rw [hfirst]
      unfold refreshApiToken
      rw [if_neg hexp2, hsub, htt]
      dsimp only
      rw [if_neg (by simp)]
      rw [if_pos rfl]
      dsimp only
      rw [if_pos hne]
    · rw [hfirst]
      unfold refreshApiToken
      rw [if_neg hexp2, hsub, htt]
      dsimp only
      rw [if_neg (by simp)]
      rw [if_pos rfl]
      dsimp only
      rw [if_pos hne]
      simp
  · intro u tok st now hsub htt hexp hstored hnone
    unfold refreshApiToken
    rw [if_neg hexp, hsub, htt]
    dsimp only
    rw [if_neg (by simp), hstored]
    dsimp only
    rw [if_neg (by simp), hnone]

/-- C3 (witness): a concrete rotation at time 50: the first refresh
succeeds, a second use of the same token at time 60 fails with 401 and
clears the entry, and a match with no stored upstream refresh token
fails with 500. -/
theorem C3_refresh_rotation_witness :
    (refreshApiToken ⟨some "alice", some "refresh", none, 100⟩
       ⟨fun x => if x = "alice" then some ⟨some "alice", some "refresh", none, 100⟩
                 else none,
        fun x => if x = "alice" then some "vrt0" else none⟩ 50).1 =
      .ok (createAccessToken "alice" "vrt0" 50, createRefreshToken "alice" 50) ∧
    (refreshApiToken ⟨some "alice", some "refresh", none, 100⟩
       ((refreshApiToken ⟨some "alice", some "refresh", none, 100⟩
          ⟨fun x => if x = "alice" then some ⟨some "alice", some "refresh", none, 100⟩
                    else none,
           fun x => if x = "alice" then some "vrt0" else none⟩ 50).2) 60).1 =
      .error 401 ∧
    (refreshApiToken ⟨some "alice", some "refresh", none, 100⟩
       ⟨fun x => if x = "alice" then some ⟨some "alice", some "refresh", none, 100⟩
                 else none,
        fun _ => none⟩ 50).1 = .error 500 := by
  have ha := C3_refresh_rotation.1 "alice" ⟨some "alice", some "refresh", none, 100⟩
    ⟨fun x => if x = "alice" then some ⟨some "alice", some "refresh", none, 100⟩
              else none,
     fun x => if x = "alice" then some "vrt0" else none⟩ 50 60 "vrt0"
    rfl rfl (by decide) (by decide) rfl rfl (by decide) (by decide)
  refine ⟨ha.1, ha.2.2.1, ?_⟩
  exact C3_refresh_rotation.2 "alice" ⟨some "alice", some "refresh", none, 100⟩
    ⟨fun x => if x = "alice" then some ⟨some "alice", some "refresh", none, 100⟩
              else none,
     fun _ => none⟩ 50 rfl rfl (by decide) rfl rfl

/-- C6 (counterexample): the claim's key conditions are not disjoint and
do not each force their event: a push carrying both a truthy
thumbnail-date and a truthy ding-dong key satisfies the doorbell
condition yet emits only `thumbnail_ready`. -/
theorem C6_camera_events_counterexample : ¬ claimC6 := by
  intro h
  have hd := (h 1 []
    [(CAM_THUMBNAIL_DATE, .vStr "2025-01-01"), (CAM_DING_DONG, .vBool true)]).2.1
    (by decide)
  have he : cameraEmitted 1 []
      [(CAM_THUMBNAIL_DATE, .vStr "2025-01-01"), (CAM_DING_DONG, .vBool true)] =
      [THUMBNAIL_READY] := by decide
  rw [he] at hd
  exact absurd hd (by decide)

/-- C6 (amended): after the default merge the camera emits at most one
domain event, selected by the first matching condition in the order
thumbnail_ready (truthy thumbnail-date value), doorbell_ding (truthy
ding-dong value), video_ready (key-set exactly id/type), motion_detected
(truthy visitor flag or one of the two motion key-sets), and no event
when none match. -/
theorem C6_camera_events_amended (selfId : Int) (raw m : Dict) :
    (cameraEmitted selfId raw m).length ≤ 1 ∧
    (cameraEmitted selfId raw m = [THUMBNAIL_READY] ↔
       dtruthy m CAM_THUMBNAIL_DATE = true) ∧
    (cameraEmitted selfId raw m = [DOORBELL_DING] ↔
       (dtruthy m CAM_THUMBNAIL_DATE = false ∧ dtruthy m CAM_DING_DONG = true)) ∧
    (cameraEmitted selfId raw m = [VIDEO_READY] ↔
       (dtruthy m CAM_THUMBNAIL_DATE = false ∧ dtruthy m CAM_DING_DONG = false ∧
        keysetEq m [ATTR_ID, ATTR_TYPE] = true)) ∧
    (cameraEmitted selfId raw m = [MOTION_DETECTED] ↔
       (dtruthy m CAM_THUMBNAIL_DATE = false ∧ dtruthy m CAM_DING_DONG = false ∧
        keysetEq m [ATTR_ID, ATTR_TYPE] = false ∧
        (dtruthy m CAM_VISITOR_DETECTED
          || keysetEq m [ATTR_ID, CAM_ACTUAL_TYPE, CAM_STATE]
          || keysetEq m [ATTR_ID, CAM_DETER_ON_DUTY, ATTR_TYPE]) = true)) ∧
    (cameraEmitted selfId raw m = [] ↔
       (dtruthy m CAM_THUMBNAIL_DATE = false ∧ dtruthy m CAM_DING_DONG = false ∧
        keysetEq m [ATTR_ID, ATTR_TYPE] = false ∧
        (dtruthy m CAM_VISITOR_DETECTED
          || keysetEq m [ATTR_ID, CAM_ACTUAL_TYPE, CAM_STATE]
          || keysetEq m [ATTR_ID, CAM_DETER_ON_DUTY, ATTR_TYPE]) = false)) := by
  rw [cameraEmitted_classify]
  by_cases h1 : dtruthy m CAM_THUMBNAIL_DATE <;>
    by_cases h2 : dtruthy m CAM_DING_DONG <;>
    by_cases h3 : keysetEq m [ATTR_ID, ATTR_TYPE] <;>
    by_cases h4 : (dtruthy m CAM_VISITOR_DETECTED
      || keysetEq m [ATTR_ID, CAM_ACTUAL_TYPE, CAM_STATE]
      || keysetEq m [ATTR_ID, CAM_DETER_ON_DUTY, ATTR_TYPE]) <;>
    simp [cameraClassify, h1, h2, h3, h4, THUMBNAIL_READY, DOORBELL_DING,
      VIDEO_READY, MOTION_DETECTED]

/-- C5: an `account_partition` push with a missing partition id or a
missing `da` key is dropped without mutating any panel; a push whose `da`
is present but an empty mapping reaches the matching panel's push handler
and is applied as a no-op merge, without raising. -/
theorem C5_partition_routing :
    (∀ (s : SystemState) (msg : Dict),
       dget msg MSG_TYPE = some (.vStr "account_partition") →
       (dget msg MSG_PARTITION_ID = none ∨ dhas msg MSG_DATA = false) →
       sysHandle s msg = .ok (s, [])) ∧
    (∀ (s : SystemState) (msg : Dict) (pid : PValue) (p : PanelState),
       dget msg MSG_TYPE = some (.vStr "account_partition") →
       dget msg MSG_PARTITION_ID = some pid → truthy pid = true →
       dget msg MSG_DATA = some (.vDict []) →
       s.panels.find? (fun q => pvEq (.vInt q.partitionId) pid) = some p →
       validatePanelData p.panelRaw = .ok p.rawDevices →
       sysHandle s msg = .ok (s,
         [Act.panelDispatch p.partitionId msg,
          Act.panelEvent p.partitionId
            (vivintEmit p.panelId UPDATE [("data", .vDict [])])])) := by
  constructor
  · intro s msg hty hdrop
    unfold sysHandle
    rw [hty]
    dsimp only
    rw [if_neg (by decide), if_pos (by decide)]
    rcases hdrop with hpid | hdata
    · rw [hpid]
    · cases hpid : dget msg MSG_PARTITION_ID with
      | none => rfl
      | some pid =>
        dsimp only
        by_cases hpt : truthy pid
        · rw [if_neg (by simp [hpt]), if_pos (by simp [hdata])]
        · rw [if_pos (by simp [hpt])]
  · intro s msg pid p hty hpid hpt hdata hfind hval
    unfold sysHandle
    rw [hty]
    dsimp only
    rw [if_neg (by decide), if_pos (by decide), hpid]
    dsimp only
    rw [if_neg (by simp [hpt]), if_neg (by simp [dhas, hdata]), hfind]
    dsimp only
    have hpu : panelUpdateData p [] false = .ok (p,
        vivintEmit p.panelId UPDATE [("data", .vDict [])]) := by
      unfold panelUpdateData
      dsimp only
      rw [show updateRaw p.panelRaw [] false = p.panelRaw from rfl, hval]
    have hph : panelHandle p msg = .ok (p, [Act.panelEvent p.partitionId
        (vivintEmit p.panelId UPDATE [("data", .vDict [])])]) := by
      unfold panelHandle
      rw [hdata]
      dsimp only
      rw [if_pos (by decide)]
      simp only [hpu, except_bind_ok]
    simp only [hph, except_bind_ok]
    rw [updateFirstP_self s.panels (fun q => pvEq (.vInt q.partitionId) pid) p hfind]

/-- C5 (witness): a message with no partition id is dropped, and an empty
`da` mapping reaches the panel as a no-op merge. -/
theorem C5_partition_routing_witness :
    sysHandle { panid := 1, raw := [], panels := [], users := [] }
      [(MSG_TYPE, .vStr "account_partition")] =
      .ok ({ panid := 1, raw := [], panels := [], users := [] }, []) ∧
    sysHandle
      { panid := 1, raw := [], users := [],
        panels := [{ panelId := 1, partitionId := 1,
                     panelRaw := [(MSG_PARTITION_ID, .vInt 1)],
                     devices := [], rawDevices := [], unregistered := [] }] }
      [(MSG_TYPE, .vStr "account_partition"), (MSG_PARTITION_ID, .vInt 1),
       (MSG_DATA, .vDict [])] =
      .ok ({ panid := 1, raw := [], users := [],
             panels := [{ panelId := 1, partitionId := 1,
                          panelRaw := [(MSG_PARTITION_ID, .vInt 1)],
                          devices := [], rawDevices := [], unregistered := [] }] },
           [Act.panelDispatch 1
              [(MSG_TYPE, .vStr "account_partition"), (MSG_PARTITION_ID, .vInt 1),
               (MSG_DATA, .vDict [])],
            Act.panelEvent 1 (vivintEmit 1 UPDATE [("data", .vDict [])])]) :=
  ⟨C5_partition_routing.1 { panid := 1, raw := [], panels := [], users := [] }
     [(MSG_TYPE, .vStr "account_partition")] rfl (Or.inl rfl),
   C5_partition_routing.2
     { panid := 1, raw := [], users := [],
       panels := [{ panelId := 1, partitionId := 1,
                    panelRaw := [(MSG_PARTITION_ID, .vInt 1)],
                    devices := [], rawDevices := [], unregistered := [] }] }
     [(MSG_TYPE, .vStr "account_partition"), (MSG_PARTITION_ID, .vInt 1),
      (MSG_DATA, .vDict [])]
     (.vInt 1)
     { panelId := 1, partitionId := 1, panelRaw := [(MSG_PARTITION_ID, .vInt 1)],
       devices := [], rawDevices := [], unregistered := [] }
     rfl rfl rfl rfl rfl rfl⟩

/-- C4: an op=delete push naming a (nonzero) device id `k` present exactly
once among the panel's devices, with exactly one matching raw entry,
removes the device from `devices`, removes the matching raw entry, maps
`k` to the device's (name, type) in the unregistered map, and emits
exactly one `device_deleted` event on the panel. -/
theorem C4_device_delete_push (p : PanelState) (k : Int) (dev : Device) (r : Dict)
    (hk : k ≠ 0)
    (hfind : p.devices.find? (fun d => pvEq (.vInt d.id) (.vInt k)) = some dev)
    (hone : p.devices.countP (fun d => pvEq (.vInt d.id) (.vInt k)) = 1)
    (hkeys : ∀ e ∈ p.rawDevices, (dget e ATTR_ID).isSome)
    (hrone : p.rawDevices.countP (rawMatches k) = 1)
    (hrfind : rawFindById p.rawDevices (.vInt k) = .ok (some r)) :
    panelHandle p
        [(MSG_OPERATION, .vStr OP_DELETE),
         (MSG_DATA, .vDict [(MSG_DEVICES,
            .vList [.vDict [(ATTR_ID, .vInt k)]])])]
      = .ok ({ p with
               devices := removeFirstP p.devices
                 (fun d => pvEq (.vInt d.id) (.vInt k)),
               rawDevices := removeFirstP p.rawDevices (fun e => pvDictEq e r),
               unregistered := assocSet p.unregistered dev.id
                 (deviceName dev, dev.typeTag) },
             [Act.panelEvent p.partitionId
               (vivintEmit p.panelId DEVICE_DELETED
                 [("device", .vDevice dev.id)])]) ∧
    dev.id = k ∧
    (∀ d ∈ removeFirstP p.devices (fun d => pvEq (.vInt d.id) (.vInt k)),
       pvEq (.vInt d.id) (.vInt k) = false) ∧
    (∀ e ∈ removeFirstP p.rawDevices (fun e => pvDictEq e r),
       rawMatches k e = false) ∧
    assocGet (assocSet p.unregistered dev.id (deviceName dev, dev.typeTag))
      dev.id = some (deviceName dev, dev.typeTag) := by
  obtain ⟨r2, hr2find, hrm2, hrem2⟩ := rawFind_delete p.rawDevices k hkeys hrone
  have hr2 : r2 = r := by
    have hcomb := hr2find.symm.trans hrfind
    exact Option.some_inj.mp (Except.ok.inj hcomb)
  subst hr2
  have hdevid : dev.id = k := by
    have := List.find?_some hfind
    simpa [pvEq] using this
  have hk0 : (k != 0) = true := by simp [hk]
  refine ⟨?_, hdevid, ?_, ?_, ?_⟩
  · have hfind' : p.devices.find? (fun d => d.id == k) = some dev := by
      simpa [pvEq] using hfind
    simp [panelHandle, panelLoop, dget, dtruthy, truthy, opEq, pvEq,
      MSG_OPERATION, MSG_DATA, MSG_DEVICES, ATTR_ID, OP_DELETE, OP_CREATE,
      hfind', hr2find, except_bind_ok, hk0]
  · exact fun d hd => removeFirstP_not_mem p.devices _ hone d hd
  · exact fun e he => hrem2 e he
  · exact assocGet_assocSet_self p.unregistered dev.id (deviceName dev, dev.typeTag)

/-- Concrete camera device used by the C4 witness. -/
def c4dev : Device :=
  ⟨42, true,
   [(ATTR_ID, .vInt 42), (ATTR_TYPE, .vStr CAMERA_TAG),
    (ATTR_NAME, .vStr "Front Door")]⟩

/-- Concrete panel used by the C4 witness: a single camera, id 42. -/
def c4panel : PanelState :=
  ⟨1, 1, [(MSG_PARTITION_ID, .vInt 1)], [c4dev], [[(ATTR_ID, .vInt 42)]], []⟩

/-- C4 (witness): deleting camera 42 from a panel holding exactly that
device. -/
theorem C4_device_delete_push_witness :
    panelHandle c4panel
      [(MSG_OPERATION, .vStr OP_DELETE),
       (MSG_DATA, .vDict [(MSG_DEVICES, .vList [.vDict [(ATTR_ID, .vInt 42)]])])]
    = .ok (⟨1, 1, [(MSG_PARTITION_ID, .vInt 1)], [], [],
            [(42, ("Front Door", .vStr CAMERA_TAG))]⟩,
           [Act.panelEvent 1 (vivintEmit 1 DEVICE_DELETED
             [("device", .vDevice 42)])]) := by
  have h := C4_device_delete_push c4panel 42 c4dev [(ATTR_ID, .vInt 42)]
    (by decide) rfl rfl
    (by intro e he
        rw [show c4panel.rawDevices = [[(ATTR_ID, .vInt 42)]] from rfl] at he
        rw [List.mem_singleton] at he
        subst he
        rfl)
    rfl rfl
  exact h.1.trans (by rfl)

/-- C7 (counterexample): the claim that EVERY entry of the users subarray
is routed by id is false on the code.  `System.update_user_data` uses
`return` (not `continue`) when an entry matches no user, so a leading
unmatched entry abandons the rest: with users `[id 1]` and subarray
`[{_id: 2}, {_id: 1}]` the entry for user 1 is never routed. -/
theorem C7_user_routing_counterexample : ¬ claimC7 := by
  intro h
  have hmain := h ⟨1, [], [], [⟨1, [(ATTR_ID, .vInt 1)]⟩]⟩
    [(MSG_TYPE, .vStr "account_system"), (MSG_OPERATION, .vStr "u"),
     (MSG_DATA, .vDict [(SYS_USERS,
        .vList [.vDict [(ATTR_ID, .vInt 2)], .vDict [(ATTR_ID, .vInt 1)]])])]
    [(SYS_USERS, .vList [.vDict [(ATTR_ID, .vInt 2)], .vDict [(ATTR_ID, .vInt 1)]])]
    [.vDict [(ATTR_ID, .vInt 2)], .vDict [(ATTR_ID, .vInt 1)]]
    rfl rfl rfl rfl
    ⟨1, [], [], [⟨1, [(ATTR_ID, .vInt 1)]⟩]⟩
    [Act.sysEvent { name := UPDATE, payload := [("data", .vDict [])] }]
    rfl
  have hbad := hmain.1 [(ATTR_ID, .vInt 1)] ⟨1, [(ATTR_ID, .vInt 1)]⟩
    (List.mem_cons_of_mem _ (List.mem_cons_self ..))
    (List.mem_cons_self ..)
    rfl
  simp at hbad

/-- C7 (amended): for an `account_system` push with op `u` whose users
subarray routes without hitting the early `return` — i.e. every entry is a
dict whose `_id` matches some loaded user — each entry is routed by id to
the matching user's push handler, the subarray is removed from the data,
and the remainder is merged into the site's raw data.  (When an entry
matches no user, the code returns early and the remaining entries are NOT
routed, as the counterexample shows.) -/
theorem C7_user_routing_amended (s : SystemState) (msg data : Dict)
    (entries : List PValue) (users' : List UserState) (acts : List Act)
    (htype : dget msg MSG_TYPE = some (.vStr "account_system"))
    (hop : dget msg MSG_OPERATION = some (.vStr "u"))
    (hdata : dget msg MSG_DATA = some (.vDict data))
    (husers : dget data SYS_USERS = some (.vList entries))
    (hrun : updateUserData s.users entries = .ok (users', acts))
    (hall : ∀ e ∈ entries, ∃ (d : Dict) (i : Int), e = .vDict d ∧
       i ∈ s.users.map UserState.id ∧
       dget d ATTR_ID = some (.vInt i) ∧ dgetLast d ATTR_ID = some (.vInt i)) :
    sysHandle s msg = .ok
        ({ s with
           users := users', raw := dmerge s.raw (ddel data SYS_USERS) },
         acts ++ [Act.sysEvent
           ⟨UPDATE, [("data", .vDict (ddel data SYS_USERS))]⟩]) ∧
    (∀ (d : Dict) (i : Int), PValue.vDict d ∈ entries →
       dget d ATTR_ID = some (.vInt i) → Act.userPush i d ∈ acts) := by
  obtain ⟨users2, acts2, hrun2, hmap2, hmem2⟩ :=
    updateUserData_routes entries s.users hall
  have hpair := Except.ok.inj (hrun.symm.trans hrun2)
  have hu : users2 = users' := (congrArg Prod.fst hpair).symm
  have ha : acts2 = acts := (congrArg Prod.snd hpair).symm
  subst hu
  subst ha
  have hne : data ≠ [] := by
    intro hd
    rw [hd] at husers
    simp [dget] at husers
  have htr : truthy (.vDict data) = true := by
    cases data with
    | nil => exact absurd rfl hne
    | cons p rest => simp [truthy]
  constructor
  · unfold sysHandle
    rw [htype]
    dsimp only
    rw [if_pos (by decide)]
    rw [hdata]
    dsimp only
    rw [hop]
    rw [if_pos (by simp [htr, opEq, pvEq]), husers]
    dsimp only
    simp only [hrun, except_bind_ok]
    rfl
  · exact hmem2

/-- C7 (witness): one user, one matching subarray entry. -/
theorem C7_user_routing_amended_witness :
    sysHandle ⟨7, [("k", .vStr "v")], [], [⟨3, [(ATTR_ID, .vInt 3)]⟩]⟩
      [(MSG_TYPE, .vStr "account_system"), (MSG_OPERATION, .vStr "u"),
       (MSG_DATA, .vDict [(SYS_USERS, .vList [.vDict [(ATTR_ID, .vInt 3)]]),
                          ("x", .vInt 9)])]
    = .ok
        (⟨7, [("k", .vStr "v"), ("x", .vInt 9)],
          [], [⟨3, [(ATTR_ID, .vInt 3)]⟩]⟩,
         [Act.userPush 3 [(ATTR_ID, .vInt 3)],
          Act.userEvent 3 ⟨UPDATE, [("data", .vDict [(ATTR_ID, .vInt 3)])]⟩,
          Act.sysEvent ⟨UPDATE, [("data", .vDict [("x", .vInt 9)])]⟩]) := by
  have h := C7_user_routing_amended
    ⟨7, [("k", .vStr "v")], [], [⟨3, [(ATTR_ID, .vInt 3)]⟩]⟩
    [(MSG_TYPE, .vStr "account_system"), (MSG_OPERATION, .vStr "u"),
     (MSG_DATA, .vDict [(SYS_USERS, .vList [.vDict [(ATTR_ID, .vInt 3)]]),
                        ("x", .vInt 9)])]
    [(SYS_USERS, .vList [.vDict [(ATTR_ID, .vInt 3)]]), ("x", .vInt 9)]
    [.vDict [(ATTR_ID, .vInt 3)]]
    [⟨3, [(ATTR_ID, .vInt 3)]⟩]
    [Act.userPush 3 [(ATTR_ID, .vInt 3)],
     Act.userEvent 3 ⟨UPDATE, [("data", .vDict [(ATTR_ID, .vInt 3)])]⟩]
    rfl rfl rfl rfl rfl
    (by
      intro e he
      rw [List.mem_singleton] at he
      subst he
      exact ⟨[(ATTR_ID, .vInt 3)], 3, rfl, by simp, rfl, rfl⟩)
  exact h.1.trans (by rfl)

/-- C1 (counterexample): the claim that a 401 response triggers an
implicit re-auth and one retry is false on the code: `__call` performs at
most one send, so on a scripted 401 the trace holds a single send and no
`connect`. -/
theorem C1_no_retry_counterexample : ¬ claimC1 := by
  intro h
  have hretry := (h.1
    ⟨some ⟨some "at", none, some ⟨false, some 1000⟩⟩, false, false⟩
    ⟨false, none⟩
    ⟨0, .error (.authError ""),
     [⟨401, true, [("message", .vStr "unauthorized")], "", none⟩]⟩
    ⟨401, true, [("message", .vStr "unauthorized")], "", none⟩ [] rfl rfl).2
  have hc : countSends (callApi
      ⟨some ⟨some "at", none, some ⟨false, some 1000⟩⟩, false, false⟩
      ⟨false, none⟩
      ⟨0, .error (.authError ""),
       [⟨401, true, [("message", .vStr "unauthorized")], "", none⟩]⟩).trace
      = 1 := rfl
  rw [hc] at hretry
  omega

/-- C1 (amended): `__call` never retries — every call performs at most one
send, and on a scripted 401 reply the (single) send surfaces an error; the
second half of the claim is faithful: on a non-auth-host target with an
invalid session, `connect` runs before the send. -/
theorem C1_transport_amended :
    (∀ (st : ApiState) (req : CallReq) (env : CallEnv),
       countSends (callApi st req env).trace ≤ 1) ∧
    (∀ (st : ApiState) (req : CallReq) (env : CallEnv),
       req.onAuthHost = false →
       isSessionValid st.token env.now = .ok false →
       (callApi st req env).trace.head? = some CallAct.connect) ∧
    (∀ (st : ApiState) (req : CallReq) (env : CallEnv) (r : HttpResp)
       (rest : List HttpResp),
       env.responses = r :: rest → r.status = 401 →
       1 ≤ countSends (callApi st req env).trace →
       ∃ k, (callApi st req env).result = .error k) :=
  ⟨callApi_sends_le_one, callApi_preflight_connect, callApi_401_error⟩

/-- C1 (witness): a valid-session 401 call performs one send and surfaces
an `ApiError`; a no-token call on a non-auth host connects first. -/
theorem C1_transport_amended_witness :
    countSends (callApi
      ⟨some ⟨some "at", none, some ⟨false, some 1000⟩⟩, false, false⟩
      ⟨false, none⟩
      ⟨0, .error (.authError ""),
       [⟨401, true, [("message", .vStr "unauthorized")], "", none⟩]⟩).trace ≤ 1 ∧
    (callApi ⟨none, false, false⟩ ⟨false, none⟩
      ⟨0, .ok ⟨some "at", none, none⟩, []⟩).trace.head?
      = some CallAct.connect ∧
    (callApi
      ⟨some ⟨some "at", none, some ⟨false, some 1000⟩⟩, false, false⟩
      ⟨false, none⟩
      ⟨0, .error (.authError ""),
       [⟨401, true, [("message", .vStr "unauthorized")], "", none⟩]⟩).result
      = .error (.apiError "unauthorized") := by
  obtain ⟨hle, hconn, h401⟩ := C1_transport_amended
  refine ⟨hle _ _ _, hconn ⟨none, false, false⟩ ⟨false, none⟩
    ⟨0, .ok ⟨some "at", none, none⟩, []⟩ rfl rfl, ?_⟩
  obtain ⟨k, hk⟩ := h401
    ⟨some ⟨some "at", none, some ⟨false, some 1000⟩⟩, false, false⟩
    ⟨false, none⟩
    ⟨0, .error (.authError ""),
     [⟨401, true, [("message", .vStr "unauthorized")], "", none⟩]⟩
    ⟨401, true, [("message", .vStr "unauthorized")], "", none⟩ []
    rfl rfl (Nat.le_refl 1)
  exact hk.trans (hk.symm.trans rfl)

end VivintSpec
